import Mathlib

/-!
Verification of the tool-use orchestration engine of the chat-mcp-client
repository, against its natural-language specification.

The embedding below is a shallow model of the TypeScript source:
- `DynamicFlow` (src/unnamed/part_006, identical in the relevant functions
  to src/src/lib/interfaces/DynamicFlowInterface.ts): stop-command check,
  memoized LLM analyses, risk assessment, the orchestration pipeline.
  The repository holds a second variant of this class
  (src/unnamed/part_008) whose `assessRisks` also blocks on the "system"
  keyword and whose `executeDynamicFlow` presents blocked plans through
  the consent gate and runs non-blocked plans directly; it is embedded
  separately with a `8` suffix on the names.
- `DynamicDiscovery` (src/src/lib/interfaces/DynamicDiscoveryInterface.ts):
  circuit breaker, discovery cooldown, tool fetching, schema validation.
- `DynamicExecution` (src/src/lib/interfaces/DynamicExecutionInterface.ts):
  execution ids, result cache, status store, cancellation.

External collaborators (the LLM capability, the consent channel, the tool
servers, the cache store) are modelled as explicit environment functions;
a model call that throws is modelled as the environment returning `none`.
Time (`Date.now()`) is passed explicitly; TTLs are expiry timestamps.
-/

/-! ## String helpers: `toLowerCase().includes(...)` -/

/-- Boolean prefix test on character lists. -/
def hasPrefixL : List Char → List Char → Bool
  | [], _ => true
  | _ :: _, [] => false
  | a :: as, b :: bs => a = b && hasPrefixL as bs

/-- Boolean infix (substring) test on character lists:
`hasInfixL pat s` is true iff `pat` occurs contiguously in `s`. -/
def hasInfixL (pat : List Char) : List Char → Bool
  | [] => hasPrefixL pat []
  | s@(_ :: rest) => hasPrefixL pat s || hasInfixL pat rest

/-- JavaScript `s.includes(pat)`. -/
def strIncludes (s pat : String) : Bool :=
  hasInfixL pat.data s.data

/-- ASCII lowercase of one character (sufficient for the keywords the
source tests). -/
def lowerChar (c : Char) : Char :=
  if 65 ≤ c.toNat ∧ c.toNat ≤ 90 then Char.ofNat (c.toNat + 32) else c

/-- JavaScript `s.toLowerCase()` (ASCII case folding suffices for the
keywords the source tests). -/
def jsToLower (s : String) : String := ⟨s.data.map lowerChar⟩

/-! ## Risk / Consent Gate: `assessRisks` and the memoized tool analysis
(src/unnamed/part_006, lines 45-83 and 246-276) -/

/-- Result of `llmFormatting.analyzeToolOutcome` (the `{userExplanation,
safetyAnalysis}` pair). -/
structure Analysis where
  userExplanation : String
  safetyAnalysis : String
  deriving DecidableEq, Repr

/-- Parameters are modelled as an association list of string-valued fields;
`JSON.stringify(parameters)` is modelled by `encodeParams`. -/
abbrev Params := List (String × String)

/-- Canonical serialization of a parameter object (stands for
`JSON.stringify(parameters)`; only used as a cache-key component). -/
def encodeParams (p : Params) : String :=
  "\x7b" ++ String.intercalate "," (p.map (fun kv => kv.1 ++ ":" ++ kv.2))
    ++ "\x7d"

/-- Association-list lookup (models `Map.get` / cache `get`). -/
def alGet {α : Type} (l : List (String × α)) (k : String) : Option α :=
  match l with
  | [] => none
  | (k', v) :: rest => if k' = k then some v else alGet rest k

/-- Association-list insert-or-replace (models `Map.set` / cache `set`). -/
def alSet {α : Type} (l : List (String × α)) (k : String) (v : α) :
    List (String × α) :=
  match l with
  | [] => [(k, v)]
  | (k', v') :: rest =>
    if k' = k then (k, v) :: rest else (k', v') :: alSet rest k v

/-- The fallback analysis cached and returned by `getOrCreateToolAnalysis`
when the LLM call throws (part_006, lines 73-76). -/
def fallbackAnalysis (toolName : String) : Analysis :=
  { userExplanation := "Expected to execute " ++ toolName ++ " with provided parameters"
    safetyAnalysis := "Unable to analyze safety - blocking operation" }

/-- The memoization stores of the orchestrator (part_006 keeps them in one
cache service under distinct key prefixes; they are modelled as separate
association lists, one per prefix). `analysisCache` is keyed
`toolName:JSON.stringify(parameters)`. -/
structure FlowState where
  analysisCache : List (String × Analysis)
  selectionCache : List (String × (Option String × String))
  extractionCache : List (String × (Params × Nat))
  schemaCache : List (String × String)
  modificationCache : List (String × (Params × String))
  deriving DecidableEq, Repr

/-- The LLM collaborator for outcome analysis: `none` models the model
call throwing. -/
structure AnalysisEnv where
  analyzeToolOutcome : String → Params → Option Analysis

/-- `getOrCreateToolAnalysis(toolName, parameters)` (part_006, lines 50-83):
cache hit returns the cached analysis; otherwise the LLM is called; if the
call throws, a fallback analysis is cached and returned. -/
def getOrCreateToolAnalysis (env : AnalysisEnv) (st : FlowState)
    (toolName : String) (parameters : Params) : Analysis × FlowState :=
  let cacheKey := toolName ++ ":" ++ encodeParams parameters
  match alGet st.analysisCache cacheKey with
  | some cached => (cached, st)
  | none =>
    match env.analyzeToolOutcome toolName parameters with
    | some analysis =>
      (analysis, { st with analysisCache := alSet st.analysisCache cacheKey analysis })
    | none =>
      let fb := fallbackAnalysis toolName
      (fb, { st with analysisCache := alSet st.analysisCache cacheKey fb })

/-- The keyword classification inlined in `assessRisks` (part_006, lines
249-275), factored over the safety-analysis text it inspects. -/
def classifySafety (safetyAnalysis : String) : List String × Bool :=
  let lower := jsToLower safetyAnalysis
  let risks₀ : List String := []
  let shouldBlock₀ := false
  let (risks₁, shouldBlock₁) :=
    if strIncludes lower "write" || strIncludes lower "modify" then
      (risks₀ ++ ["This operation may modify your data"], true)
    else (risks₀, shouldBlock₀)
  let (risks₂, shouldBlock₂) :=
    if strIncludes lower "delete" then
      (risks₁ ++ ["This operation may delete data"], true)
    else (risks₁, shouldBlock₁)
  let (risks₃, shouldBlock₃) :=
    if strIncludes lower "sensitive" then
      (risks₂ ++ ["This operation may access sensitive information"], true)
    else (risks₂, shouldBlock₂)
  let risks₄ :=
    if strIncludes lower "system" then
      risks₃ ++ ["This operation may affect system settings"]
    else risks₃
  (if risks₄.length > 0 then risks₄ else ["Low risk operation"], shouldBlock₃)

/-- `assessRisks(toolName, parameters)` (part_006, lines 246-276): obtains
the (memoized) analysis and classifies its `safetyAnalysis` text. -/
def assessRisks (env : AnalysisEnv) (st : FlowState)
    (toolName : String) (parameters : Params) :
    (List String × Bool) × FlowState :=
  let (analysis, st') := getOrCreateToolAnalysis env st toolName parameters
  (classifySafety analysis.safetyAnalysis, st')

/-- An analysis environment whose LLM call always throws. -/
def throwingAnalysisEnv : AnalysisEnv := ⟨fun _ _ => none⟩

/-- The empty memoization state. -/
def emptyFlowState : FlowState := ⟨[], [], [], [], []⟩

/-- Keyword characterization of `classifySafety` (the classification
inlined in `assessRisks`). -/
theorem classifySafety_spec (text : String) :
    ((strIncludes (jsToLower text) "write" = true ∨
        strIncludes (jsToLower text) "modify" = true) →
      "This operation may modify your data" ∈ (classifySafety text).1 ∧
        (classifySafety text).2 = true) ∧
    (strIncludes (jsToLower text) "delete" = true →
      "This operation may delete data" ∈ (classifySafety text).1 ∧
        (classifySafety text).2 = true) ∧
    (strIncludes (jsToLower text) "sensitive" = true →
      "This operation may access sensitive information" ∈ (classifySafety text).1 ∧
        (classifySafety text).2 = true) ∧
    (strIncludes (jsToLower text) "system" = true →
      "This operation may affect system settings" ∈ (classifySafety text).1) ∧
    ((strIncludes (jsToLower text) "write" = false ∧
        strIncludes (jsToLower text) "modify" = false ∧
        strIncludes (jsToLower text) "delete" = false ∧
        strIncludes (jsToLower text) "sensitive" = false ∧
        strIncludes (jsToLower text) "system" = false) →
      (classifySafety text).1 = ["Low risk operation"] ∧
        (classifySafety text).2 = false) := by
  unfold classifySafety
  cases hw : strIncludes (jsToLower text) "write" <;>
    cases hm : strIncludes (jsToLower text) "modify" <;>
      cases hd : strIncludes (jsToLower text) "delete" <;>
        cases hs : strIncludes (jsToLower text) "sensitive" <;>
          cases hy : strIncludes (jsToLower text) "system" <;>
            simp_all

/-- C1: when the underlying safety-assessment call throws, the source
caches the fallback analysis text
`"Unable to analyze safety - blocking operation"`; that text contains none
of the blocking keywords, so `assessRisks` returns
`risks=["Low risk operation"]`, `shouldBlock=false` — the gate fails OPEN,
contradicting the claimed `shouldBlock=true`,
`risks=["Unable to assess safety"]`. -/
theorem assessRisks_fails_open_on_llm_failure :
    (assessRisks throwingAnalysisEnv emptyFlowState "some_tool" []).1 =
      (["Low risk operation"], false) := by decide

/-- C5: for every analysis environment, memoization state and
`(tool, parameters)` pair, `assessRisks` classifies the safety-analysis
text it obtains by case-insensitive keyword exactly as claimed:
write/modify → modify-data risk and block; delete → delete-data risk and
block; sensitive → sensitive-information risk and block; system →
system-settings risk; no keyword → exactly `["Low risk operation"]` and no
block. -/
theorem assessRisks_keyword_classification (env : AnalysisEnv)
    (st : FlowState) (tool : String) (params : Params) :
    let text := (getOrCreateToolAnalysis env st tool params).1.safetyAnalysis
    let res := (assessRisks env st tool params).1
    ((strIncludes (jsToLower text) "write" = true ∨
        strIncludes (jsToLower text) "modify" = true) →
      "This operation may modify your data" ∈ res.1 ∧ res.2 = true) ∧
    (strIncludes (jsToLower text) "delete" = true →
      "This operation may delete data" ∈ res.1 ∧ res.2 = true) ∧
    (strIncludes (jsToLower text) "sensitive" = true →
      "This operation may access sensitive information" ∈ res.1 ∧ res.2 = true) ∧
    (strIncludes (jsToLower text) "system" = true →
      "This operation may affect system settings" ∈ res.1) ∧
    ((strIncludes (jsToLower text) "write" = false ∧
        strIncludes (jsToLower text) "modify" = false ∧
        strIncludes (jsToLower text) "delete" = false ∧
        strIncludes (jsToLower text) "sensitive" = false ∧
        strIncludes (jsToLower text) "system" = false) →
      res.1 = ["Low risk operation"] ∧ res.2 = false) := by
  have h := classifySafety_spec
    (getOrCreateToolAnalysis env st tool params).1.safetyAnalysis
  simpa [assessRisks] using h

/-- A concrete analysis environment whose safety text mentions deletion. -/
def deletingAnalysisEnv : AnalysisEnv :=
  ⟨fun _ _ => some ⟨"runs the tool", "this tool will Delete records"⟩⟩

/-- Witness for C5 at a concrete environment: the delete keyword yields a
delete-data risk and a block. -/
theorem assessRisks_keyword_classification_witness :
    "This operation may delete data" ∈
      (assessRisks deletingAnalysisEnv emptyFlowState "t" []).1.1 ∧
    (assessRisks deletingAnalysisEnv emptyFlowState "t" []).1.2 = true := by
  have h := assessRisks_keyword_classification deletingAnalysisEnv
    emptyFlowState "t" []
  exact h.2.1 (by decide)

/-! ## Orchestrator: `processUserRequest` / `executeDynamicFlow`
(src/unnamed/part_006, lines 45-48, 85-244, 280-459) -/

/-- `isStopCommand(userRequest)` (part_006, lines 45-48). -/
def isStopCommand (userRequest : String) : Bool :=
  ["stop", "cancel", "quit", "exit"].any
    (fun cmd => strIncludes (jsToLower userRequest) cmd)

/-- The decision returned by the consent channel. -/
structure ConsentDecision where
  approved : Bool
  modificationRequested : Bool
  userFeedback : String
  reason : String
  deriving DecidableEq, Repr

/-- The execution plan presented to the consent gate. -/
structure Plan where
  tool : String
  parameters : Params
  expectedOutcome : String
  risks : List String
  alternatives : List String
  deriving DecidableEq, Repr

/-- The object returned by `consent.handleModificationRequest`. -/
structure ModifiedPlan where
  userFeedback : String
  originalTool : String
  originalParameters : Params
  originalRequest : String
  deriving DecidableEq, Repr

/-- A tool summary (`{name, description}`) as used for selection. -/
structure ToolSummary where
  name : String
  description : String
  deriving DecidableEq, Repr

/-- Observable invocations of the orchestration stages and collaborators. -/
inductive Event where
  | discovery
  | selection
  | extraction
  | executionEv (tool : String) (params : Params)
  | consentEv (tool : String)
  | stopAll (reason : String)
  deriving DecidableEq, Repr

/-- The collaborators of the orchestrator. `Option`-valued collaborators
model calls that may throw (`none`). `explainPlan` and
`explainModification` model `transparency.explainAction` at its two call
sites; `getConsent` receives the tool, the explanation and the plan. -/
structure FlowEnv extends AnalysisEnv where
  getAllToolsResult : List ToolSummary
  selectTool : String → List ToolSummary → Option (Option String × String)
  extractParameters : String → String → String → String → Option (Params × Nat)
  getToolSchema : String → String
  analyzeModifications : String → String → Params → Option (Params × String)
  explainPlan : String → Params → String → String → String
  explainModification : String → Params → Params → Params → String → String
  getConsent : String → String → Plan → ConsentDecision
  handleModificationRequest : String → ModifiedPlan
  handleRejection : String → String
  executeToolId : String → Params → String
  getToolResponse : String → String
  formatResponseWithLLM : String → String → String → String

/-- Serialization of tool summaries, standing for the `toolsHash`
(`JSON.stringify` of name/description pairs) used in the selection cache
key (part_006, line 95). -/
def encodeSummaries (ts : List ToolSummary) : String :=
  "[" ++ String.intercalate ","
    (ts.map (fun t => "\x7bname:" ++ t.name ++ ",description:" ++ t.description
      ++ "\x7d"))
    ++ "]"

/-- `getOrCreateToolDiscovery()` (part_006, lines 85-88): delegates to
`discovery.getAllTools()`. -/
def getOrCreateToolDiscovery (env : FlowEnv) : List ToolSummary × List Event :=
  (env.getAllToolsResult, [Event.discovery])

/-- `getOrCreateToolSelection(userRequest, availableTools)` (part_006,
lines 90-127): memoized LLM tool selection, falling back to
`{tool: null, reasoning: 'Failed to select tool'}` when the model call
throws. -/
def getOrCreateToolSelection (env : FlowEnv) (st : FlowState)
    (userRequest : String) (availableTools : List ToolSummary) :
    (Option String × String) × FlowState × List Event :=
  let cacheKey := "tool_selection:" ++ userRequest ++ ":" ++ encodeSummaries availableTools
  match alGet st.selectionCache cacheKey with
  | some cached => (cached, st, [Event.selection])
  | none =>
    match env.selectTool userRequest availableTools with
    | some sel =>
      (sel, { st with selectionCache := alSet st.selectionCache cacheKey sel },
        [Event.selection])
    | none =>
      let fb : Option String × String := (none, "Failed to select tool")
      (fb, { st with selectionCache := alSet st.selectionCache cacheKey fb },
        [Event.selection])

/-- `getOrCreateSchema(toolName)` (part_006, lines 175-192): memoized
schema fetch. -/
def getOrCreateSchema (env : FlowEnv) (st : FlowState) (toolName : String) :
    String × FlowState :=
  match alGet st.schemaCache ("schema:" ++ toolName) with
  | some s => (s, st)
  | none =>
    let s := env.getToolSchema toolName
    (s, { st with schemaCache := alSet st.schemaCache ("schema:" ++ toolName) s })

/-- `getOrCreateParameterExtraction(toolName, userRequest, toolReasoning)`
(part_006, lines 129-173): memoized LLM parameter extraction, falling back
to `{parameters: {}, confidence: 0}` when the model call throws. -/
def getOrCreateParameterExtraction (env : FlowEnv) (st : FlowState)
    (toolName userRequest toolReasoning : String) :
    (Params × Nat) × FlowState × List Event :=
  let cacheKey := "parameter_extraction:" ++ toolName ++ ":" ++ userRequest
    ++ ":" ++ toolReasoning
  match alGet st.extractionCache cacheKey with
  | some cached => (cached, st, [Event.extraction])
  | none =>
    let (toolSchema, st1) := getOrCreateSchema env st toolName
    match env.extractParameters toolName toolSchema userRequest toolReasoning with
    | some ext =>
      (ext, { st1 with extractionCache := alSet st1.extractionCache cacheKey ext },
        [Event.extraction])
    | none =>
      let fb : Params × Nat := ([], 0)
      (fb, { st1 with extractionCache := alSet st1.extractionCache cacheKey fb },
        [Event.extraction])

/-- `getOrCreateModificationAnalysis(userFeedback, originalTool,
originalParameters)` (part_006, lines 194-234): memoized modification
analysis, falling back to
`{changes: {}, reasoning: 'Failed to analyze modifications'}`. -/
def getOrCreateModificationAnalysis (env : FlowEnv) (st : FlowState)
    (userFeedback originalTool : String) (originalParameters : Params) :
    (Params × String) × FlowState :=
  let cacheKey := "modification:" ++ userFeedback ++ ":" ++ originalTool
    ++ ":" ++ encodeParams originalParameters
  match alGet st.modificationCache cacheKey with
  | some cached => (cached, st)
  | none =>
    match env.analyzeModifications userFeedback originalTool originalParameters with
    | some analysis =>
      (analysis,
        { st with modificationCache := alSet st.modificationCache cacheKey analysis })
    | none =>
      let fb : Params × String := ([], "Failed to analyze modifications")
      (fb, { st with modificationCache := alSet st.modificationCache cacheKey fb })

/-- `predictOutcome(toolName, parameters)` (part_006, lines 236-244). -/
def predictOutcome (env : AnalysisEnv) (st : FlowState)
    (toolName : String) (parameters : Params) : String × FlowState :=
  let (analysis, st') := getOrCreateToolAnalysis env st toolName parameters
  (analysis.userExplanation, st')

/-- JavaScript object spread `{...orig, ...changes}`: keys of `orig` keep
their position, overridden by `changes`; new keys of `changes` follow. -/
def mergeParams (orig changes : Params) : Params :=
  orig.map (fun kv => match alGet changes kv.1 with
    | some v => (kv.1, v)
    | none => kv) ++
  changes.filter (fun kv => (alGet orig kv.1).isNone)

/-- `Array.join(sep)`. -/
def joinSep (sep : String) (l : List String) : String :=
  String.intercalate sep l

/-- The fixed stop acknowledgement (part_006, lines 361 and 399). -/
def stopMessage : String := "Stopped processing. How can I help you?"

/-- The fixed no-suitable-tool message (part_006, line 371). -/
def noToolMessage : String :=
  "I couldn't find a suitable tool for your request. Please try rephrasing your request."

/-- The blocked-operation message (part_006, line 410). -/
def blockedMessage (risks : List String) : String :=
  "❌ Operation blocked for safety reasons:\n" ++ joinSep "\n" risks
    ++ "\n\nPlease contact an administrator if this operation is necessary."

/-- The blocked-modified-plan message (part_006, line 314). -/
def modifiedBlockedMessage (risks : List String) : String :=
  "❌ Modified plan blocked for safety reasons:\n" ++ joinSep "\n" risks

/-- Sentinel result when the recursion fuel of the modification loop is
exhausted (the source loop is unbounded; see spec §9). -/
def fuelExhausted : String := "[recursion fuel exhausted]"

mutual

/-- `executeDynamicFlow(llmSelectedTool, llmExtractedParameters,
originalUserRequest)` (part_006, lines 391-458): stop re-check; predict
outcome and assess risk; if `shouldBlock`, stop and return the blocked
message; otherwise explain the plan, obtain consent and branch on the
decision (approved → execute and format; modification requested → the
modification loop; rejected → rejection acknowledgement). -/
def executeDynamicFlow (env : FlowEnv) (fuel : Nat) (st : FlowState)
    (tool : String) (params : Params) (originalRequest : String) :
    String × FlowState × List Event :=
  if isStopCommand originalRequest then
    (stopMessage, st, [Event.stopAll "User requested stop"])
  else
    let po := predictOutcome env.toAnalysisEnv st tool params
    let ra := assessRisks env.toAnalysisEnv po.2 tool params
    if ra.1.2 then
      (blockedMessage ra.1.1, ra.2,
        [Event.stopAll ("Operation blocked due to safety concerns: " ++ joinSep ", " ra.1.1)])
    else
      let executionPlan : Plan := ⟨tool, params, po.1, ra.1.1, []⟩
      let planExplanation := env.explainPlan tool params po.1 originalRequest
      let consentResult := env.getConsent tool planExplanation executionPlan
      if consentResult.approved then
        let execId := env.executeToolId tool params
        let rawResponse := env.getToolResponse execId
        (env.formatResponseWithLLM rawResponse originalRequest tool, ra.2,
          [Event.consentEv tool, Event.executionEv tool params])
      else if consentResult.modificationRequested then
        match fuel with
        | 0 => (fuelExhausted, ra.2, [Event.consentEv tool])
        | fuel' + 1 =>
          let mp := env.handleModificationRequest consentResult.userFeedback
          let r := executeModifiedPlan env fuel' ra.2 mp
          (r.1, r.2.1, Event.consentEv tool :: r.2.2)
      else
        (env.handleRejection consentResult.reason, ra.2, [Event.consentEv tool])

/-- `executeModifiedPlan(modifiedPlan)` (part_006, lines 280-355): analyze
the feedback, merge the changes over the previous parameters, re-assess
risk (blocking outright on `shouldBlock`), re-obtain consent and recurse. -/
def executeModifiedPlan (env : FlowEnv) (fuel : Nat) (st : FlowState)
    (mp : ModifiedPlan) : String × FlowState × List Event :=
  let ma := getOrCreateModificationAnalysis env st mp.userFeedback
    mp.originalTool mp.originalParameters
  let newParameters := mergeParams mp.originalParameters ma.1.1
  let modificationExplanation := env.explainModification mp.originalTool
    mp.originalParameters newParameters ma.1.1 ma.1.2
  let ra := assessRisks env.toAnalysisEnv ma.2 mp.originalTool newParameters
  if ra.1.2 then
    (modifiedBlockedMessage ra.1.1, ra.2, [])
  else
    let po := predictOutcome env.toAnalysisEnv ra.2 mp.originalTool newParameters
    let plan : Plan := ⟨mp.originalTool, newParameters, po.1, ra.1.1, []⟩
    let consentResult := env.getConsent mp.originalTool modificationExplanation plan
    if consentResult.approved then
      match fuel with
      | 0 => (fuelExhausted, po.2, [Event.consentEv mp.originalTool])
      | fuel' + 1 =>
        let r := executeDynamicFlow env fuel' po.2 mp.originalTool newParameters
          mp.originalRequest
        (r.1, r.2.1, Event.consentEv mp.originalTool :: r.2.2)
    else if consentResult.modificationRequested then
      match fuel with
      | 0 => (fuelExhausted, po.2, [Event.consentEv mp.originalTool])
      | fuel' + 1 =>
        let mp' := { mp with userFeedback := consentResult.userFeedback,
                             originalParameters := newParameters }
        let r := executeModifiedPlan env fuel' po.2 mp'
        (r.1, r.2.1, Event.consentEv mp.originalTool :: r.2.2)
    else
      (env.handleRejection consentResult.reason, po.2, [Event.consentEv mp.originalTool])

end

/-- `processUserRequest(originalUserRequest)` (part_006, lines 357-387):
stop check, then discovery, selection (a `null` or empty selected tool is
falsy and yields the fixed no-tool message), extraction, and delegation to
`executeDynamicFlow`. -/
def processUserRequest (env : FlowEnv) (fuel : Nat) (st : FlowState)
    (originalUserRequest : String) : String × FlowState × List Event :=
  if isStopCommand originalUserRequest then
    (stopMessage, st, [Event.stopAll "User requested stop"])
  else
    let td := getOrCreateToolDiscovery env
    let ts := getOrCreateToolSelection env st originalUserRequest td.1
    match ts.1.1 with
    | none => (noToolMessage, ts.2.1, td.2 ++ ts.2.2)
    | some tool =>
      if tool = "" then (noToolMessage, ts.2.1, td.2 ++ ts.2.2)
      else
        let pe := getOrCreateParameterExtraction env ts.2.1 tool
          originalUserRequest ts.1.2
        let r := executeDynamicFlow env fuel pe.2.1 tool pe.1.1 originalUserRequest
        (r.1, r.2.1, td.2 ++ ts.2.2 ++ pe.2.2 ++ r.2.2)

/-- A trivial concrete collaborator environment. -/
def trivialFlowEnv : FlowEnv :=
  { analyzeToolOutcome := fun _ _ => none
    getAllToolsResult := []
    selectTool := fun _ _ => none
    extractParameters := fun _ _ _ _ => none
    getToolSchema := fun _ => ""
    analyzeModifications := fun _ _ _ => none
    explainPlan := fun _ _ _ _ => ""
    explainModification := fun _ _ _ _ _ => ""
    getConsent := fun _ _ _ => ⟨false, false, "", ""⟩
    handleModificationRequest := fun f => ⟨f, "", [], ""⟩
    handleRejection := fun r => r
    executeToolId := fun _ _ => ""
    getToolResponse := fun _ => ""
    formatResponseWithLLM := fun _ _ _ => "" }

/-- C4: a request containing a stop-vocabulary token short-circuits
`processUserRequest`: the fixed stop acknowledgement is returned, the
memoization state is untouched, and the trace holds only the
stop-all-processing call — so discovery, selection, extraction and
execution are never invoked. -/
theorem processUserRequest_stop_short_circuits (env : FlowEnv) (fuel : Nat)
    (st : FlowState) (req : String) (h : isStopCommand req = true) :
    processUserRequest env fuel st req =
      (stopMessage, st, [Event.stopAll "User requested stop"]) ∧
    Event.discovery ∉ (processUserRequest env fuel st req).2.2 ∧
    Event.selection ∉ (processUserRequest env fuel st req).2.2 ∧
    Event.extraction ∉ (processUserRequest env fuel st req).2.2 ∧
    ∀ t p, Event.executionEv t p ∉ (processUserRequest env fuel st req).2.2 := by
  simp [processUserRequest, h]

/-- Witness for C4: "please stop" is a stop command and is answered by the
fixed acknowledgement with only the stop-all event. -/
theorem processUserRequest_stop_witness :
    isStopCommand "please stop" = true ∧
    processUserRequest trivialFlowEnv 0 emptyFlowState "please stop" =
      (stopMessage, emptyFlowState, [Event.stopAll "User requested stop"]) :=
  ⟨by decide,
    (processUserRequest_stop_short_circuits trivialFlowEnv 0 emptyFlowState
      "please stop" (by decide)).1⟩

/-- The risk assessment as computed inside `executeDynamicFlow` (outcome
prediction first, then risk assessment on the updated memoization state). -/
def flowRisk (env : FlowEnv) (st : FlowState) (tool : String)
    (params : Params) : (List String × Bool) × FlowState :=
  assessRisks env.toAnalysisEnv
    (predictOutcome env.toAnalysisEnv st tool params).2 tool params

/-- The consent decision as obtained inside `executeDynamicFlow` for a
non-blocked plan. -/
def flowConsent (env : FlowEnv) (st : FlowState) (tool : String)
    (params : Params) (req : String) : ConsentDecision :=
  env.getConsent tool
    (env.explainPlan tool params (predictOutcome env.toAnalysisEnv st tool params).1 req)
    ⟨tool, params, (predictOutcome env.toAnalysisEnv st tool params).1,
      (flowRisk env st tool params).1.1, []⟩

/-- In the part_006 variant, `executeDynamicFlow` gates on risk as
follows: `shouldBlock=true` returns the fixed blocked message with no
consent round-trip; `shouldBlock=false` presents the plan through the
consent gate and branches on the decision (approved → execute and format;
modification requested → the modification loop; rejected → the rejection
acknowledgement). The part_008 variant gates the other way round — see
`executeDynamicFlow_consent_gating`. -/
theorem executeDynamicFlow_gating (env : FlowEnv) (fuel : Nat)
    (st : FlowState) (tool : String) (params : Params) (req : String)
    (h : isStopCommand req = false) :
    ((flowRisk env st tool params).1.2 = true →
      executeDynamicFlow env (fuel + 1) st tool params req =
        (blockedMessage (flowRisk env st tool params).1.1,
         (flowRisk env st tool params).2,
         [Event.stopAll ("Operation blocked due to safety concerns: "
            ++ joinSep ", " (flowRisk env st tool params).1.1)])) ∧
    ((flowRisk env st tool params).1.2 = false →
      Event.consentEv tool ∈ (executeDynamicFlow env (fuel + 1) st tool params req).2.2 ∧
      ((flowConsent env st tool params req).approved = true →
        executeDynamicFlow env (fuel + 1) st tool params req =
          (env.formatResponseWithLLM
             (env.getToolResponse (env.executeToolId tool params)) req tool,
           (flowRisk env st tool params).2,
           [Event.consentEv tool, Event.executionEv tool params])) ∧
      ((flowConsent env st tool params req).approved = false →
        (flowConsent env st tool params req).modificationRequested = true →
        executeDynamicFlow env (fuel + 1) st tool params req =
          ((executeModifiedPlan env fuel (flowRisk env st tool params).2
              (env.handleModificationRequest
                (flowConsent env st tool params req).userFeedback)).1,
           (executeModifiedPlan env fuel (flowRisk env st tool params).2
              (env.handleModificationRequest
                (flowConsent env st tool params req).userFeedback)).2.1,
           Event.consentEv tool ::
             (executeModifiedPlan env fuel (flowRisk env st tool params).2
              (env.handleModificationRequest
                (flowConsent env st tool params req).userFeedback)).2.2)) ∧
      ((flowConsent env st tool params req).approved = false →
        (flowConsent env st tool params req).modificationRequested = false →
        executeDynamicFlow env (fuel + 1) st tool params req =
          (env.handleRejection (flowConsent env st tool params req).reason,
           (flowRisk env st tool params).2, [Event.consentEv tool]))) := by
  simp only [flowConsent, flowRisk]
  rw [executeDynamicFlow]
  simp only [h, Bool.false_eq_true, if_false]
  by_cases hb : (assessRisks env.toAnalysisEnv
      (predictOutcome env.toAnalysisEnv st tool params).2 tool params).1.2 = true
  · simp [hb]
  · simp only [Bool.not_eq_true] at hb
    by_cases ha : (env.getConsent tool
        (env.explainPlan tool params
          (predictOutcome env.toAnalysisEnv st tool params).1 req)
        ⟨tool, params, (predictOutcome env.toAnalysisEnv st tool params).1,
          (assessRisks env.toAnalysisEnv
            (predictOutcome env.toAnalysisEnv st tool params).2 tool params).1.1,
          []⟩).approved = true
    · simp [hb, ha]
    · simp only [Bool.not_eq_true] at ha
      by_cases hm : (env.getConsent tool
          (env.explainPlan tool params
            (predictOutcome env.toAnalysisEnv st tool params).1 req)
          ⟨tool, params, (predictOutcome env.toAnalysisEnv st tool params).1,
            (assessRisks env.toAnalysisEnv
              (predictOutcome env.toAnalysisEnv st tool params).2 tool params).1.1,
            []⟩).modificationRequested = true
      · simp [hb, ha, hm]
      · simp only [Bool.not_eq_true] at hm
        simp [hb, ha, hm]

/-- A concrete environment whose safety analysis mentions deletion, so the
risk assessment yields `shouldBlock=true`. -/
def blockingFlowEnv : FlowEnv :=
  { trivialFlowEnv with
    analyzeToolOutcome := fun _ _ => some ⟨"runs", "this will delete records"⟩ }

/-- The part_006 variant at a concrete input: the risk assessment yields
`shouldBlock=true` and `executeDynamicFlow` returns the fixed blocked
message without presenting the plan through the consent gate — the trace
holds only the stop-all call. -/
theorem executeDynamicFlow_blocked_without_consent :
    (flowRisk blockingFlowEnv emptyFlowState "t" []).1.2 = true ∧
    (executeDynamicFlow blockingFlowEnv 5 emptyFlowState "t" [] "run it").1 =
      blockedMessage ["This operation may delete data"] ∧
    (executeDynamicFlow blockingFlowEnv 5 emptyFlowState "t" [] "run it").2.2 =
      [Event.stopAll
        "Operation blocked due to safety concerns: This operation may delete data"] := by
  decide

/-- The part_006 gating at a concrete input: a blocking assessment makes
that variant's `executeDynamicFlow` return the blocked message with no
consent round-trip. -/
theorem executeDynamicFlow_gating_witness :
    isStopCommand "run it" = false ∧
    executeDynamicFlow blockingFlowEnv 1 emptyFlowState "t" [] "run it" =
      (blockedMessage (flowRisk blockingFlowEnv emptyFlowState "t" []).1.1,
       (flowRisk blockingFlowEnv emptyFlowState "t" []).2,
       [Event.stopAll ("Operation blocked due to safety concerns: "
          ++ joinSep ", " (flowRisk blockingFlowEnv emptyFlowState "t" []).1.1)]) :=
  ⟨by decide,
    (executeDynamicFlow_gating blockingFlowEnv 0 emptyFlowState "t" [] "run it"
      (by decide)).1 (by decide)⟩

/-! ## Orchestrator, part_008 variant: `executeDynamicFlow`
(src/unnamed/part_008, lines 231-262 and 266-431). Its helper functions
`isStopCommand`, `getOrCreateToolAnalysis`, `predictOutcome` and
`executeModifiedPlan` are textually identical to part_006's and are shared
with the embedding above; its `assessRisks` and `executeDynamicFlow`
differ and are embedded here with a `8` suffix. -/

/-- The keyword classification inlined in part_008's `assessRisks`
(lines 231-262): identical to part_006's except that the "system" keyword
also sets `shouldBlock` (line 255). -/
def classifySafety8 (safetyAnalysis : String) : List String × Bool :=
  let lower := jsToLower safetyAnalysis
  let risks₀ : List String := []
  let shouldBlock₀ := false
  let (risks₁, shouldBlock₁) :=
    if strIncludes lower "write" || strIncludes lower "modify" then
      (risks₀ ++ ["This operation may modify your data"], true)
    else (risks₀, shouldBlock₀)
  let (risks₂, shouldBlock₂) :=
    if strIncludes lower "delete" then
      (risks₁ ++ ["This operation may delete data"], true)
    else (risks₁, shouldBlock₁)
  let (risks₃, shouldBlock₃) :=
    if strIncludes lower "sensitive" then
      (risks₂ ++ ["This operation may access sensitive information"], true)
    else (risks₂, shouldBlock₂)
  let (risks₄, shouldBlock₄) :=
    if strIncludes lower "system" then
      (risks₃ ++ ["This operation may affect system settings"], true)
    else (risks₃, shouldBlock₃)
  (if risks₄.length > 0 then risks₄ else ["Low risk operation"], shouldBlock₄)

/-- part_008's `assessRisks(toolName, parameters)` (lines 231-262):
obtains the (memoized) analysis — `getOrCreateToolAnalysis` is identical
in both variants — and classifies its `safetyAnalysis` text. -/
def assessRisks8 (env : AnalysisEnv) (st : FlowState)
    (toolName : String) (parameters : Params) :
    (List String × Bool) × FlowState :=
  let (analysis, st') := getOrCreateToolAnalysis env st toolName parameters
  (classifySafety8 analysis.safetyAnalysis, st')

/-- The plan shape part_008's `executeDynamicFlow` passes to the consent
gate for a blocked plan (lines 404-409: no `alternatives` field). -/
structure Plan8 where
  tool : String
  parameters : Params
  expectedOutcome : String
  risks : List String
  deriving DecidableEq, Repr

/-- The collaborators of part_008's flow. `getConsentBlocked` models
`consent.getConsent` at the executeDynamicFlow call site (plan without
alternatives); `getConsent` models it at the executeModifiedPlan call
site; `executeToolResult` stands for
`(await execution.executeTool(...)).result`, the payload handed to
`formatResponseWithLLM` on both execution paths. -/
structure FlowEnv8 extends AnalysisEnv where
  explainConsentRequest : String → List String → String
  getConsentBlocked : String → String → Plan8 → ConsentDecision
  getConsent : String → String → Plan → ConsentDecision
  explainModification : String → Params → Params → Params → String → String
  analyzeModifications : String → String → Params → Option (Params × String)
  handleModificationRequest : String → ModifiedPlan
  handleRejection : String → String
  executeToolResult : String → Params → String
  formatResponseWithLLM : String → String → String → String

/-- part_008's `getOrCreateModificationAnalysis` (lines 179-219),
textually identical to part_006's. -/
def getOrCreateModificationAnalysis8 (env : FlowEnv8) (st : FlowState)
    (userFeedback originalTool : String) (originalParameters : Params) :
    (Params × String) × FlowState :=
  let cacheKey := "modification:" ++ userFeedback ++ ":" ++ originalTool
    ++ ":" ++ encodeParams originalParameters
  match alGet st.modificationCache cacheKey with
  | some cached => (cached, st)
  | none =>
    match env.analyzeModifications userFeedback originalTool originalParameters with
    | some analysis =>
      (analysis,
        { st with modificationCache := alSet st.modificationCache cacheKey analysis })
    | none =>
      let fb : Params × String := ([], "Failed to analyze modifications")
      (fb, { st with modificationCache := alSet st.modificationCache cacheKey fb })

mutual

/-- part_008's `executeDynamicFlow(llmSelectedTool, llmExtractedParameters,
originalUserRequest)` (lines 377-431): stop re-check; predict outcome and
assess risk; if `shouldBlock`, build the consent explanation, present the
plan through the consent gate and branch on the decision (approved →
execute and format; modification requested → the modification loop;
rejected → rejection acknowledgement); otherwise execute directly and
format, with no consent round-trip. -/
def executeDynamicFlow8 (env : FlowEnv8) (fuel : Nat) (st : FlowState)
    (tool : String) (params : Params) (originalRequest : String) :
    String × FlowState × List Event :=
  if isStopCommand originalRequest then
    (stopMessage, st, [Event.stopAll "User requested stop"])
  else
    let po := predictOutcome env.toAnalysisEnv st tool params
    let ra := assessRisks8 env.toAnalysisEnv po.2 tool params
    if ra.1.2 then
      let consentExplanation := env.explainConsentRequest po.1 ra.1.1
      let consentResult := env.getConsentBlocked tool consentExplanation
        ⟨tool, params, po.1, ra.1.1⟩
      if consentResult.approved then
        (env.formatResponseWithLLM (env.executeToolResult tool params)
           originalRequest tool,
         ra.2, [Event.consentEv tool, Event.executionEv tool params])
      else if consentResult.modificationRequested then
        match fuel with
        | 0 => (fuelExhausted, ra.2, [Event.consentEv tool])
        | fuel' + 1 =>
          let mp := env.handleModificationRequest consentResult.userFeedback
          let r := executeModifiedPlan8 env fuel' ra.2 mp
          (r.1, r.2.1, Event.consentEv tool :: r.2.2)
      else
        (env.handleRejection consentResult.reason, ra.2, [Event.consentEv tool])
    else
      (env.formatResponseWithLLM (env.executeToolResult tool params)
         originalRequest tool,
       ra.2, [Event.executionEv tool params])

/-- part_008's `executeModifiedPlan(modifiedPlan)` (lines 266-341):
structurally identical to part_006's, but re-assessing risk with the
part_008 classifier and recursing into part_008's `executeDynamicFlow`. -/
def executeModifiedPlan8 (env : FlowEnv8) (fuel : Nat) (st : FlowState)
    (mp : ModifiedPlan) : String × FlowState × List Event :=
  let ma := getOrCreateModificationAnalysis8 env st mp.userFeedback
    mp.originalTool mp.originalParameters
  let newParameters := mergeParams mp.originalParameters ma.1.1
  let modificationExplanation := env.explainModification mp.originalTool
    mp.originalParameters newParameters ma.1.1 ma.1.2
  let ra := assessRisks8 env.toAnalysisEnv ma.2 mp.originalTool newParameters
  if ra.1.2 then
    (modifiedBlockedMessage ra.1.1, ra.2, [])
  else
    let po := predictOutcome env.toAnalysisEnv ra.2 mp.originalTool newParameters
    let plan : Plan := ⟨mp.originalTool, newParameters, po.1, ra.1.1, []⟩
    let consentResult := env.getConsent mp.originalTool modificationExplanation plan
    if consentResult.approved then
      match fuel with
      | 0 => (fuelExhausted, po.2, [Event.consentEv mp.originalTool])
      | fuel' + 1 =>
        let r := executeDynamicFlow8 env fuel' po.2 mp.originalTool newParameters
          mp.originalRequest
        (r.1, r.2.1, Event.consentEv mp.originalTool :: r.2.2)
    else if consentResult.modificationRequested then
      match fuel with
      | 0 => (fuelExhausted, po.2, [Event.consentEv mp.originalTool])
      | fuel' + 1 =>
        let mp' := { mp with userFeedback := consentResult.userFeedback,
                             originalParameters := newParameters }
        let r := executeModifiedPlan8 env fuel' po.2 mp'
        (r.1, r.2.1, Event.consentEv mp.originalTool :: r.2.2)
    else
      (env.handleRejection consentResult.reason, po.2,
        [Event.consentEv mp.originalTool])

end

/-- The risk assessment as computed inside part_008's
`executeDynamicFlow` (outcome prediction first, then risk assessment on
the updated memoization state). -/
def flowRisk8 (env : FlowEnv8) (st : FlowState) (tool : String)
    (params : Params) : (List String × Bool) × FlowState :=
  assessRisks8 env.toAnalysisEnv
    (predictOutcome env.toAnalysisEnv st tool params).2 tool params

/-- The consent decision part_008's `executeDynamicFlow` obtains for a
blocked plan. -/
def flowConsent8 (env : FlowEnv8) (st : FlowState) (tool : String)
    (params : Params) : ConsentDecision :=
  env.getConsentBlocked tool
    (env.explainConsentRequest (predictOutcome env.toAnalysisEnv st tool params).1
      (flowRisk8 env st tool params).1.1)
    ⟨tool, params, (predictOutcome env.toAnalysisEnv st tool params).1,
      (flowRisk8 env st tool params).1.1⟩

/-- C2: part_008's `executeDynamicFlow` gates on risk exactly as claimed:
when the risk assessment yields `shouldBlock=true` it presents the plan
through the consent gate and branches on the decision (approved → execute
and format the result; modification requested → the modification loop;
rejected → the rejection acknowledgement); when `shouldBlock=false` it
executes directly, formats, and returns with no consent round-trip. -/
theorem executeDynamicFlow_consent_gating (env : FlowEnv8) (fuel : Nat)
    (st : FlowState) (tool : String) (params : Params) (req : String)
    (h : isStopCommand req = false) :
    ((flowRisk8 env st tool params).1.2 = true →
      Event.consentEv tool ∈
        (executeDynamicFlow8 env (fuel + 1) st tool params req).2.2 ∧
      ((flowConsent8 env st tool params).approved = true →
        executeDynamicFlow8 env (fuel + 1) st tool params req =
          (env.formatResponseWithLLM (env.executeToolResult tool params) req tool,
           (flowRisk8 env st tool params).2,
           [Event.consentEv tool, Event.executionEv tool params])) ∧
      ((flowConsent8 env st tool params).approved = false →
        (flowConsent8 env st tool params).modificationRequested = true →
        executeDynamicFlow8 env (fuel + 1) st tool params req =
          ((executeModifiedPlan8 env fuel (flowRisk8 env st tool params).2
              (env.handleModificationRequest
                (flowConsent8 env st tool params).userFeedback)).1,
           (executeModifiedPlan8 env fuel (flowRisk8 env st tool params).2
              (env.handleModificationRequest
                (flowConsent8 env st tool params).userFeedback)).2.1,
           Event.consentEv tool ::
             (executeModifiedPlan8 env fuel (flowRisk8 env st tool params).2
                (env.handleModificationRequest
                  (flowConsent8 env st tool params).userFeedback)).2.2)) ∧
      ((flowConsent8 env st tool params).approved = false →
        (flowConsent8 env st tool params).modificationRequested = false →
        executeDynamicFlow8 env (fuel + 1) st tool params req =
          (env.handleRejection (flowConsent8 env st tool params).reason,
           (flowRisk8 env st tool params).2, [Event.consentEv tool]))) ∧
    ((flowRisk8 env st tool params).1.2 = false →
      executeDynamicFlow8 env (fuel + 1) st tool params req =
        (env.formatResponseWithLLM (env.executeToolResult tool params) req tool,
         (flowRisk8 env st tool params).2, [Event.executionEv tool params]) ∧
      ∀ t, Event.consentEv t ∉
        (executeDynamicFlow8 env (fuel + 1) st tool params req).2.2) := by
  simp only [flowConsent8, flowRisk8]
  rw [executeDynamicFlow8]
  simp only [h, Bool.false_eq_true, if_false]
  by_cases hb : (assessRisks8 env.toAnalysisEnv
      (predictOutcome env.toAnalysisEnv st tool params).2 tool params).1.2 = true
  · simp only [hb]
    by_cases ha : (env.getConsentBlocked tool
        (env.explainConsentRequest
          (predictOutcome env.toAnalysisEnv st tool params).1
          (assessRisks8 env.toAnalysisEnv
            (predictOutcome env.toAnalysisEnv st tool params).2 tool params).1.1)
        ⟨tool, params, (predictOutcome env.toAnalysisEnv st tool params).1,
          (assessRisks8 env.toAnalysisEnv
            (predictOutcome env.toAnalysisEnv st tool params).2 tool params).1.1⟩).approved = true
    · simp [hb, ha]
    · simp only [Bool.not_eq_true] at ha
      by_cases hm : (env.getConsentBlocked tool
          (env.explainConsentRequest
            (predictOutcome env.toAnalysisEnv st tool params).1
            (assessRisks8 env.toAnalysisEnv
              (predictOutcome env.toAnalysisEnv st tool params).2 tool params).1.1)
          ⟨tool, params, (predictOutcome env.toAnalysisEnv st tool params).1,
            (assessRisks8 env.toAnalysisEnv
              (predictOutcome env.toAnalysisEnv st tool params).2 tool params).1.1⟩).modificationRequested = true
      · simp [hb, ha, hm]
      · simp only [Bool.not_eq_true] at hm
        simp [hb, ha, hm]
  · simp only [Bool.not_eq_true] at hb
    simp [hb]

/-- A concrete part_008 environment: the safety analysis mentions
deletion (so the plan blocks) and the consent channel approves. -/
def approvingFlowEnv8 : FlowEnv8 :=
  { analyzeToolOutcome := fun _ _ => some ⟨"runs", "this will delete records"⟩
    explainConsentRequest := fun _ _ => "consent?"
    getConsentBlocked := fun _ _ _ => ⟨true, false, "", ""⟩
    getConsent := fun _ _ _ => ⟨false, false, "", ""⟩
    explainModification := fun _ _ _ _ _ => ""
    analyzeModifications := fun _ _ _ => none
    handleModificationRequest := fun f => ⟨f, "", [], ""⟩
    handleRejection := fun r => r
    executeToolResult := fun _ _ => "raw-result"
    formatResponseWithLLM := fun raw _ _ => "formatted:" ++ raw }

/-- Witness for C2 at a concrete input: a blocking assessment goes
through the consent gate, is approved, and the result is executed and
formatted. -/
theorem executeDynamicFlow_consent_gating_witness :
    isStopCommand "run it" = false ∧
    (flowRisk8 approvingFlowEnv8 emptyFlowState "t" []).1.2 = true ∧
    executeDynamicFlow8 approvingFlowEnv8 1 emptyFlowState "t" [] "run it" =
      (approvingFlowEnv8.formatResponseWithLLM
         (approvingFlowEnv8.executeToolResult "t" []) "run it" "t",
       (flowRisk8 approvingFlowEnv8 emptyFlowState "t" []).2,
       [Event.consentEv "t", Event.executionEv "t" []]) :=
  ⟨by decide, by decide,
   ((executeDynamicFlow_consent_gating approvingFlowEnv8 0 emptyFlowState "t" []
      "run it" (by decide)).1 (by decide)).2.1 (by decide)⟩

/-! ## Tool Registry: `DynamicDiscovery`
(src/src/lib/interfaces/DynamicDiscoveryInterface.ts, lines 15-113 and
191-265) -/

/-- Association-list delete (models `Map.delete`). -/
def alDel {α : Type} (l : List (String × α)) (k : String) :
    List (String × α) :=
  match l with
  | [] => []
  | (k', v) :: rest => if k' = k then alDel rest k else (k', v) :: alDel rest k

/-- Outcome of one `fetch('/api/mcp-tools?server=...')` call: network
throw, non-ok HTTP status, ok-but-invalid payload, or a successful tool
list. Tools are opaque here (`normalizeToolData` only rewrites fields and
preserves the list length, which is all these claims depend on). -/
inductive FetchResp where
  | netThrow
  | notOk
  | invalid
  | ok (tools : List String)
  deriving DecidableEq, Repr

/-- Whether a fetch outcome is the successful case. -/
def fetchOk : FetchResp → Bool
  | FetchResp.ok _ => true
  | _ => false

/-- The configured servers (`env.MCP_SERVERS`) and the per-server fetch
collaborator. -/
structure DiscEnv where
  servers : List String
  fetch : String → FetchResp

/-- Mutable registry state: per-server error records
`{count, lastError}` for the circuit breaker, the time of the last
discovery attempt, and the per-server discovery cache
(`cacheService.getToolDiscovery` / `setToolDiscovery`). -/
structure DiscState where
  serverErrors : List (String × Nat × Nat)
  lastDiscoveryAttempt : Nat
  discCache : List (String × List String)
  deriving DecidableEq, Repr

/-- `isServerBlocked(server)` (DynamicDiscoveryInterface.ts, lines 28-34):
the breaker is open when `errorCount >= 3` and the last error is less than
60s old. -/
def isServerBlocked (st : DiscState) (now : Nat) (server : String) : Bool :=
  match alGet st.serverErrors server with
  | none => false
  | some errorInfo => errorInfo.1 ≥ 3 && now - errorInfo.2 < 60000

/-- `recordServerError(server)` (lines 37-44). -/
def recordServerError (st : DiscState) (now : Nat) (server : String) :
    DiscState :=
  let current := (alGet st.serverErrors server).getD (0, 0)
  { st with serverErrors := alSet st.serverErrors server (current.1 + 1, now) }

/-- `resetServerError(server)` (lines 47-50). -/
def resetServerError (st : DiscState) (server : String) : DiscState :=
  { st with serverErrors := alDel st.serverErrors server }

/-- `shouldAttemptDiscovery()` (lines 53-56): more than 30s since the last
discovery attempt. -/
def shouldAttemptDiscovery (st : DiscState) (now : Nat) : Bool :=
  now - st.lastDiscoveryAttempt > 30000

/-- The loop of `getCachedTools()` (lines 104-113): concatenates every
server's cached tool set, ignoring the circuit breaker. -/
def getCachedToolsFrom (cache : List (String × List String)) :
    List String → List String
  | [] => []
  | s :: rest => (alGet cache s).getD [] ++ getCachedToolsFrom cache rest

/-- `getCachedTools()` over the configured servers. -/
def getCachedTools (env : DiscEnv) (st : DiscState) : List String :=
  getCachedToolsFrom st.discCache env.servers

/-- The cached-tools loop inside `getAllTools()` (lines 73-86): like
`getCachedTools` but skipping servers whose circuit breaker is open. -/
def cachedFromUnblocked (st : DiscState) (now : Nat) :
    List String → List String
  | [] => []
  | s :: rest =>
    if isServerBlocked st now s then cachedFromUnblocked st now rest
    else (alGet st.discCache s).getD [] ++ cachedFromUnblocked st now rest

/-- The per-server loop of `fetchToolsFromMCPServer()` (lines 198-248):
skip circuit-broken servers; on success cache the tools, reset the error
count and count the success; on any failure record the error and continue.
Returns `(allTools, successfulServers, state, number of fetch calls)`. -/
def fetchLoop (env : DiscEnv) (now : Nat) :
    List String → DiscState → List String → Nat → Nat →
    List String × Nat × DiscState × Nat
  | [], st, acc, succ, n => (acc, succ, st, n)
  | s :: rest, st, acc, succ, n =>
    if isServerBlocked st now s then fetchLoop env now rest st acc succ n
    else
      match env.fetch s with
      | FetchResp.ok tools =>
        let st' := resetServerError
          { st with discCache := alSet st.discCache s tools } s
        fetchLoop env now rest st' (acc ++ tools) (succ + 1) (n + 1)
      | _ => fetchLoop env now rest (recordServerError st now s) acc succ (n + 1)

/-- `fetchToolsFromMCPServer()` (lines 191-265): `none` models the thrown
error when no server succeeded or no tools were found. -/
def fetchToolsFromMCPServer (env : DiscEnv) (st : DiscState) (now : Nat) :
    Option (List String) × DiscState × Nat :=
  let r := fetchLoop env now env.servers st [] 0 0
  if r.2.1 = 0 then (none, r.2.2.1, r.2.2.2)
  else if r.1.length = 0 then (none, r.2.2.1, r.2.2.2)
  else (some r.1, r.2.2.1, r.2.2.2)

/-- `getAllTools()` (lines 58-101): under cooldown return the cached union
(possibly empty); otherwise stamp the attempt time, return the
circuit-filtered cached union if non-empty, otherwise fetch, falling back
to the unfiltered cached union when the fetch throws. The third component
counts network fetch calls; every throw is caught, so the function is
total. -/
def getAllTools (env : DiscEnv) (st : DiscState) (now : Nat) :
    List String × DiscState × Nat :=
  if !shouldAttemptDiscovery st now then
    (getCachedTools env st, st, 0)
  else
    let st1 := { st with lastDiscoveryAttempt := now }
    let fromCache := cachedFromUnblocked st1 now env.servers
    if fromCache.length > 0 then (fromCache, st1, 0)
    else
      match fetchToolsFromMCPServer env st1 now with
      | (some tools, st2, n) => (tools, st2, n)
      | (none, st2, n) => (getCachedTools env st2, st2, n)

/-- Updating a key leaves other keys of an association list unchanged. -/
theorem alGet_alSet_ne {α : Type} (l : List (String × α)) (k k' : String)
    (v : α) (h : ¬ k' = k) : alGet (alSet l k v) k' = alGet l k' := by
  have hk : ¬ k = k' := fun he => h he.symm
  induction l with
  | nil => simp [alSet, alGet, hk]
  | cons kv rest ih =>
    by_cases hkv : kv.1 = k
    · simp [alSet, alGet, hkv, hk]
    · simp [alSet, alGet, hkv, ih]

/-- Deleting a key leaves other keys of an association list unchanged. -/
theorem alGet_alDel_ne {α : Type} (l : List (String × α)) (k k' : String)
    (h : ¬ k' = k) : alGet (alDel l k) k' = alGet l k' := by
  have hk : ¬ k = k' := fun he => h he.symm
  induction l with
  | nil => rfl
  | cons kv rest ih =>
    by_cases hkv : kv.1 = k
    · simp [alDel, alGet, hkv, hk, ih]
    · simp [alDel, alGet, hkv, ih]

/-- Stamping the discovery-attempt time does not change the breaker. -/
theorem isServerBlocked_stamp (st : DiscState) (now t : Nat) (s : String) :
    isServerBlocked { st with lastDiscoveryAttempt := t } now s =
      isServerBlocked st now s := rfl

/-- Recording an error for one server does not change another server's
breaker. -/
theorem isServerBlocked_record_ne (st : DiscState) (now now' : Nat)
    (s r : String) (h : ¬ r = s) :
    isServerBlocked (recordServerError st now' s) now r =
      isServerBlocked st now r := by
  simp [isServerBlocked, recordServerError, alGet_alSet_ne _ _ _ _ h]

/-- A successful fetch for one server does not change another server's
breaker. -/
theorem isServerBlocked_success_ne (st : DiscState) (now : Nat)
    (s r : String) (tools : List String) (h : ¬ r = s) :
    isServerBlocked
      (resetServerError { st with discCache := alSet st.discCache s tools } s)
      now r = isServerBlocked st now r := by
  simp [isServerBlocked, resetServerError, alGet_alDel_ne _ _ _ h]

/-- When no fetch can succeed, the fetch loop accumulates nothing, counts
no success, and leaves the discovery cache untouched. -/
theorem fetchLoop_no_success (env : DiscEnv) (now : Nat) :
    ∀ (servers : List String) (st : DiscState) (acc : List String)
      (succ n : Nat),
    (∀ s ∈ servers, fetchOk (env.fetch s) = false) →
    (fetchLoop env now servers st acc succ n).1 = acc ∧
    (fetchLoop env now servers st acc succ n).2.1 = succ ∧
    (fetchLoop env now servers st acc succ n).2.2.1.discCache = st.discCache := by
  intro servers
  induction servers with
  | nil => intro st acc succ n _; simp [fetchLoop]
  | cons s rest ih =>
    intro st acc succ n h
    have hs := h s (List.mem_cons_self s rest)
    have hrest : ∀ r ∈ rest, fetchOk (env.fetch r) = false :=
      fun r hr => h r (List.mem_cons_of_mem s hr)
    by_cases hb : isServerBlocked st now s = true
    · simpa [fetchLoop, hb] using ih st acc succ n hrest
    · cases hf : env.fetch s with
      | ok tools => rw [hf] at hs; simp [fetchOk] at hs
      | netThrow =>
        simpa [fetchLoop, hb, hf, recordServerError] using
          ih (recordServerError st now s) acc succ (n + 1) hrest
      | notOk =>
        simpa [fetchLoop, hb, hf, recordServerError] using
          ih (recordServerError st now s) acc succ (n + 1) hrest
      | invalid =>
        simpa [fetchLoop, hb, hf, recordServerError] using
          ih (recordServerError st now s) acc succ (n + 1) hrest

/-- When every server's breaker is open, the fetch loop does nothing. -/
theorem fetchLoop_all_blocked (env : DiscEnv) (now : Nat) :
    ∀ (servers : List String) (st : DiscState) (acc : List String)
      (succ n : Nat),
    (∀ s ∈ servers, isServerBlocked st now s = true) →
    fetchLoop env now servers st acc succ n = (acc, succ, st, n) := by
  intro servers
  induction servers with
  | nil => intro st acc succ n _; simp [fetchLoop]
  | cons s rest ih =>
    intro st acc succ n h
    have hs := h s (List.mem_cons_self s rest)
    have hrest : ∀ r ∈ rest, isServerBlocked st now r = true :=
      fun r hr => h r (List.mem_cons_of_mem s hr)
    simpa [fetchLoop, hs] using ih st acc succ n hrest

/-- With duplicate-free servers, the loop performs exactly one network
fetch per server whose breaker is closed. -/
theorem fetchLoop_count (env : DiscEnv) (now : Nat) :
    ∀ (servers : List String), servers.Nodup →
    ∀ (st : DiscState) (acc : List String) (succ n : Nat),
    (fetchLoop env now servers st acc succ n).2.2.2 =
      n + (servers.filter (fun s => !isServerBlocked st now s)).length := by
  intro servers
  induction servers with
  | nil => intro _ st acc succ n; simp [fetchLoop]
  | cons s rest ih =>
    intro hnd st acc succ n
    have hs : s ∉ rest := (List.nodup_cons.mp hnd).1
    have hrest := (List.nodup_cons.mp hnd).2
    by_cases hb : isServerBlocked st now s = true
    · simp [fetchLoop, hb, ih hrest st acc succ n]
    · have hfilter : ∀ (st' : DiscState),
          (∀ r ∈ rest, isServerBlocked st' now r = isServerBlocked st now r) →
          rest.filter (fun r => !isServerBlocked st' now r) =
            rest.filter (fun r => !isServerBlocked st now r) := by
        intro st' he
        apply List.filter_congr
        intro r hr
        rw [he r hr]
      have hb' : isServerBlocked st now s = false := by simpa using hb
      cases hf : env.fetch s with
      | ok tools =>
        have heq := hfilter
          (resetServerError { st with discCache := alSet st.discCache s tools } s)
          (fun r hr => isServerBlocked_success_ne st now s r tools
            (fun h' => hs (h' ▸ hr)))
        rw [show fetchLoop env now (s :: rest) st acc succ n =
              fetchLoop env now rest
                (resetServerError
                  { st with discCache := alSet st.discCache s tools } s)
                (acc ++ tools) (succ + 1) (n + 1) from by
            simp [fetchLoop, hb', hf]]
        rw [ih hrest _ (acc ++ tools) (succ + 1) (n + 1), heq]
        simp [List.filter_cons, hb']
        omega
      | netThrow =>
        have heq := hfilter (recordServerError st now s)
          (fun r hr => isServerBlocked_record_ne st now now s r
            (fun h' => hs (h' ▸ hr)))
        rw [show fetchLoop env now (s :: rest) st acc succ n =
              fetchLoop env now rest (recordServerError st now s) acc succ (n + 1) from by
            simp [fetchLoop, hb', hf]]
        rw [ih hrest _ acc succ (n + 1), heq]
        simp [List.filter_cons, hb']
        omega
      | notOk =>
        have heq := hfilter (recordServerError st now s)
          (fun r hr => isServerBlocked_record_ne st now now s r
            (fun h' => hs (h' ▸ hr)))
        rw [show fetchLoop env now (s :: rest) st acc succ n =
              fetchLoop env now rest (recordServerError st now s) acc succ (n + 1) from by
            simp [fetchLoop, hb', hf]]
        rw [ih hrest _ acc succ (n + 1), heq]
        simp [List.filter_cons, hb']
        omega
      | invalid =>
        have heq := hfilter (recordServerError st now s)
          (fun r hr => isServerBlocked_record_ne st now now s r
            (fun h' => hs (h' ▸ hr)))
        rw [show fetchLoop env now (s :: rest) st acc succ n =
              fetchLoop env now rest (recordServerError st now s) acc succ (n + 1) from by
            simp [fetchLoop, hb', hf]]
        rw [ih hrest _ acc succ (n + 1), heq]
        simp [List.filter_cons, hb']
        omega

/-- With no cached entry for any configured server, the cached union is
empty. -/
theorem getCachedToolsFrom_empty (cache : List (String × List String)) :
    ∀ (servers : List String), (∀ s ∈ servers, alGet cache s = none) →
    getCachedToolsFrom cache servers = [] := by
  intro servers
  induction servers with
  | nil => intro _; rfl
  | cons s rest ih =>
    intro h
    have hs := h s (List.mem_cons_self s rest)
    have hrest : ∀ r ∈ rest, alGet cache r = none :=
      fun r hr => h r (List.mem_cons_of_mem s hr)
    simp [getCachedToolsFrom, hs, ih hrest]

/-- With no cached entry for any configured server, the circuit-filtered
cached union is empty as well. -/
theorem cachedFromUnblocked_empty (st : DiscState) (now : Nat) :
    ∀ (servers : List String), (∀ s ∈ servers, alGet st.discCache s = none) →
    cachedFromUnblocked st now servers = [] := by
  intro servers
  induction servers with
  | nil => intro _; rfl
  | cons s rest ih =>
    intro h
    have hs := h s (List.mem_cons_self s rest)
    have hrest : ∀ r ∈ rest, alGet st.discCache r = none :=
      fun r hr => h r (List.mem_cons_of_mem s hr)
    by_cases hb : isServerBlocked st now s = true
    · simp [cachedFromUnblocked, hb, ih hrest]
    · simp [cachedFromUnblocked, hb, hs, ih hrest]

/-- With every breaker open, the circuit-filtered cached union is empty. -/
theorem cachedFromUnblocked_all_blocked (st : DiscState) (now : Nat) :
    ∀ (servers : List String), (∀ s ∈ servers, isServerBlocked st now s = true) →
    cachedFromUnblocked st now servers = [] := by
  intro servers
  induction servers with
  | nil => intro _; rfl
  | cons s rest ih =>
    intro h
    have hs := h s (List.mem_cons_self s rest)
    have hrest : ∀ r ∈ rest, isServerBlocked st now r = true :=
      fun r hr => h r (List.mem_cons_of_mem s hr)
    simp [cachedFromUnblocked, hs, ih hrest]

/-- Stamping the discovery-attempt time changes neither the breaker nor the
cache, so the filtered cached union is unchanged. -/
theorem cachedFromUnblocked_stamp (st : DiscState) (now t : Nat) :
    ∀ (servers : List String),
    cachedFromUnblocked { st with lastDiscoveryAttempt := t } now servers =
      cachedFromUnblocked st now servers := by
  intro servers
  induction servers with
  | nil => rfl
  | cons s rest ih => simp [cachedFromUnblocked, isServerBlocked_stamp, ih]

/-- C6: `getAllTools` never raises. When no server fetch can succeed and no
cached tool set exists, it returns the empty list; when every configured
server is circuit-broken, it returns the (unfiltered) cached union —
possibly empty — and performs no network fetch. (The embedding is a total
function: every throw inside the source is caught, as modelled by the
`Option` in `fetchToolsFromMCPServer`.) -/
theorem getAllTools_degrades (env : DiscEnv) (st : DiscState) (now : Nat) :
    ((∀ s ∈ env.servers, fetchOk (env.fetch s) = false) →
     (∀ s ∈ env.servers, alGet st.discCache s = none) →
      (getAllTools env st now).1 = []) ∧
    ((∀ s ∈ env.servers, isServerBlocked st now s = true) →
      (getAllTools env st now).1 = getCachedTools env st ∧
      (getAllTools env st now).2.2 = 0) := by
  constructor
  · intro hfetch hcache
    by_cases hcd : shouldAttemptDiscovery st now = true
    · have hfrom : cachedFromUnblocked { st with lastDiscoveryAttempt := now } now
          env.servers = [] := by
        rw [cachedFromUnblocked_stamp]
        exact cachedFromUnblocked_empty st now env.servers hcache
      have hloop := fetchLoop_no_success env now env.servers
        { st with lastDiscoveryAttempt := now } [] 0 0 hfetch
      simp only [getAllTools, hcd, Bool.not_true, Bool.false_eq_true, if_false,
        hfrom, List.length_nil, gt_iff_lt, Nat.lt_irrefl,
        fetchToolsFromMCPServer]
      rw [hloop.2.1]
      simp only [if_pos rfl]
      simp [getCachedTools]
      rw [hloop.2.2]
      exact getCachedToolsFrom_empty st.discCache env.servers hcache
    · have hcd' : shouldAttemptDiscovery st now = false := by simpa using hcd
      simp [getAllTools, hcd', getCachedTools,
        getCachedToolsFrom_empty st.discCache env.servers hcache]
  · intro hblocked
    by_cases hcd : shouldAttemptDiscovery st now = true
    · have hblocked1 : ∀ s ∈ env.servers,
          isServerBlocked { st with lastDiscoveryAttempt := now } now s = true := by
        intro s hsm
        rw [isServerBlocked_stamp]
        exact hblocked s hsm
      have hfrom : cachedFromUnblocked { st with lastDiscoveryAttempt := now } now
          env.servers = [] :=
        cachedFromUnblocked_all_blocked _ now env.servers hblocked1
      have hloop := fetchLoop_all_blocked env now env.servers
        { st with lastDiscoveryAttempt := now } [] 0 0 hblocked1
      simp [getAllTools, hcd, hfrom, fetchToolsFromMCPServer, hloop,
        getCachedTools]
    · have hcd' : shouldAttemptDiscovery st now = false := by simpa using hcd
      simp [getAllTools, hcd']

/-- A one-server environment whose fetch always throws. -/
def failingDiscEnv : DiscEnv := ⟨["a"], fun _ => FetchResp.netThrow⟩

/-- A one-server environment whose fetch succeeds with one tool. -/
def singleServerEnv : DiscEnv := ⟨["a"], fun _ => FetchResp.ok ["t1"]⟩

/-- The empty registry state. -/
def emptyDiscState : DiscState := ⟨[], 0, []⟩

/-- A registry state whose single server is circuit-broken at time 50000
(3 errors, last one 1s ago) but has a cached tool set. -/
def blockedDiscState : DiscState :=
  ⟨[("a", (3, 49000))], 0, [("a", ["cached1"])]⟩

/-- Witness for C6 at concrete inputs: a failing server with no cache
yields the empty list, and an all-circuit-broken configuration yields the
cached set with zero fetches. -/
theorem getAllTools_degrades_witness :
    (getAllTools failingDiscEnv emptyDiscState 40000).1 = [] ∧
    (getAllTools singleServerEnv blockedDiscState 50000).1 =
      getCachedTools singleServerEnv blockedDiscState ∧
    (getAllTools singleServerEnv blockedDiscState 50000).2.2 = 0 :=
  ⟨(getAllTools_degrades failingDiscEnv emptyDiscState 40000).1
      (by decide) (by decide),
   ((getAllTools_degrades singleServerEnv blockedDiscState 50000).2 (by decide)).1,
   ((getAllTools_degrades singleServerEnv blockedDiscState 50000).2 (by decide)).2⟩

/-- Counterexample to C7 as stated: with an empty cache and the cooldown
elapsed, `getAllTools` does NOT "return whatever is cached without
triggering any network call" — it performs one network fetch and returns
the fetched tools. -/
theorem getAllTools_fetches_on_empty_cache :
    (∀ s ∈ singleServerEnv.servers, alGet emptyDiscState.discCache s = none) ∧
    shouldAttemptDiscovery emptyDiscState 40000 = true ∧
    (getAllTools singleServerEnv emptyDiscState 40000).2.2 = 1 ∧
    (getAllTools singleServerEnv emptyDiscState 40000).1 = ["t1"] := by
  decide

/-- C7 (amended): if the cooldown has not elapsed, `getAllTools` returns
the cached union with no network call (even when the cache is empty); if
the cooldown has elapsed and the circuit-filtered cached union is
non-empty, it returns that union with no network call; only when that
cached union is empty does it fetch — one network call per configured
server whose circuit breaker is closed. -/
theorem getAllTools_cooldown_cache_fetch (env : DiscEnv) (st : DiscState)
    (now : Nat) (hnd : env.servers.Nodup) :
    (shouldAttemptDiscovery st now = false →
      getAllTools env st now = (getCachedTools env st, st, 0)) ∧
    (shouldAttemptDiscovery st now = true →
      (cachedFromUnblocked st now env.servers ≠ [] →
        getAllTools env st now =
          (cachedFromUnblocked st now env.servers,
           { st with lastDiscoveryAttempt := now }, 0)) ∧
      (cachedFromUnblocked st now env.servers = [] →
        (getAllTools env st now).2.2 =
          (env.servers.filter (fun s => !isServerBlocked st now s)).length)) := by
  constructor
  · intro hcd
    simp [getAllTools, hcd]
  · intro hcd
    constructor
    · intro hne
      have hfrom := cachedFromUnblocked_stamp st now now env.servers
      simp only [getAllTools, hcd, Bool.not_true, Bool.false_eq_true, if_false,
        hfrom]
      have hlen : 0 < (cachedFromUnblocked st now env.servers).length :=
        List.length_pos.mpr hne
      simp [hlen]
    · intro hempty
      have hfrom : cachedFromUnblocked { st with lastDiscoveryAttempt := now } now
          env.servers = [] := by
        rw [cachedFromUnblocked_stamp]; exact hempty
      have hcount := fetchLoop_count env now env.servers hnd
        { st with lastDiscoveryAttempt := now } [] 0 0
      have hfiltereq :
          env.servers.filter
              (fun s => !isServerBlocked { st with lastDiscoveryAttempt := now } now s) =
            env.servers.filter (fun s => !isServerBlocked st now s) := by
        apply List.filter_congr
        intro r _
        rw [isServerBlocked_stamp]
      rw [hfiltereq] at hcount
      simp only [getAllTools, hcd, Bool.not_true, Bool.false_eq_true, if_false,
        hfrom, List.length_nil, gt_iff_lt, Nat.lt_irrefl,
        fetchToolsFromMCPServer]
      by_cases hs : (fetchLoop env now env.servers
          { st with lastDiscoveryAttempt := now } [] 0 0).2.1 = 0
      · simpa [hs] using hcount
      · by_cases hl : (fetchLoop env now env.servers
            { st with lastDiscoveryAttempt := now } [] 0 0).1.length = 0
        · simpa [hs, hl] using hcount
        · simpa [hs, hl] using hcount

/-- A registry state whose last discovery attempt was 5s ago at query
time 40000, with a cached tool set. -/
def recentDiscState : DiscState := ⟨[], 35000, [("a", ["cached1"])]⟩

/-- Witness for the amended C7 at a concrete input: within the cooldown
window the cached set is returned and no fetch happens. -/
theorem getAllTools_cooldown_cache_fetch_witness :
    shouldAttemptDiscovery recentDiscState 40000 = false ∧
    getAllTools singleServerEnv recentDiscState 40000 =
      (getCachedTools singleServerEnv recentDiscState, recentDiscState, 0) :=
  ⟨by decide,
   (getAllTools_cooldown_cache_fetch singleServerEnv recentDiscState 40000
      (by decide)).1 (by decide)⟩

/-! ## Execution Tracker: `DynamicExecution`
(src/src/lib/interfaces/DynamicExecutionInterface.ts) -/

/-- A stored or synthesized execution record (the JSON payloads stored
under `execution:<id>:<state>` keys round-trip unchanged). -/
structure ExecRecord where
  executionId : String
  status : String
  result : Option String
  error : Option String
  deriving DecidableEq, Repr

/-- The tracker's mutable state: the exact-match result cache
(`cacheService`, entries carry their expiry time), the Redis status store
(`setex`, entries carry their expiry time), and the id-generation
counter. -/
structure ExecState where
  resultCache : List (String × String × Nat)
  store : List (String × ExecRecord × Nat)
  nextId : Nat
  deriving DecidableEq, Repr

/-- TTL-aware lookup: an entry is visible while `now` is before its
expiry (models Redis `setex`/`get` and the cache service's TTL). -/
def ttlGet {α : Type} (l : List (String × α × Nat)) (k : String)
    (now : Nat) : Option α :=
  match alGet l k with
  | none => none
  | some entry => if now < entry.2 then some entry.1 else none

/-- `generateExecutionId()` (DynamicExecutionInterface.ts, lines 17-19)
returns `exec_${Date.now()}_${random}`, an opaque identifier that is fresh
on every call; it is modelled injectively from the generation counter. -/
def mkId (n : Nat) : String := "exec_" ++ String.mk (List.replicate n '*')

/-- Outcome of one `/api/mcp-call-tool` invocation: network throw, non-ok
HTTP response, explicit failure payload, or success with a result. -/
inductive ServerResp where
  | netThrow
  | httpError
  | failure (err : String)
  | success (result : String)
  deriving DecidableEq, Repr

/-- The tool-server collaborator. -/
structure ExecEnv where
  invoke : String → Params → ServerResp

/-- `executeTool(toolName, parameters)` (lines 22-104): generate an id;
on a live result-cache hit return `completed` without contacting the
server; otherwise invoke the server — failures are returned but never
persisted; success caches the result and persists the completed record,
both with a 1-hour TTL. The third component counts tool-server contacts. -/
def executeTool (env : ExecEnv) (st : ExecState) (now : Nat)
    (toolName : String) (parameters : Params) :
    ExecRecord × ExecState × Nat :=
  let executionId := mkId st.nextId
  let st0 := { st with nextId := st.nextId + 1 }
  let cacheKey := "tool_result:" ++ toolName ++ ":" ++ encodeParams parameters
  match ttlGet st0.resultCache cacheKey now with
  | some cachedResult =>
    (⟨executionId, "completed", some cachedResult, none⟩, st0, 0)
  | none =>
    match env.invoke toolName parameters with
    | ServerResp.netThrow =>
      (⟨executionId, "failed", none, some "Unknown error occurred"⟩, st0, 1)
    | ServerResp.httpError =>
      (⟨executionId, "failed", none, some "MCP server is currently unavailable"⟩, st0, 1)
    | ServerResp.failure err =>
      (⟨executionId, "failed", none, some err⟩, st0, 1)
    | ServerResp.success r =>
      let st1 := { st0 with
        resultCache := alSet st0.resultCache cacheKey (r, now + 3600) }
      let successData : ExecRecord := ⟨executionId, "completed", some r, none⟩
      let st2 := { st1 with
        store := (alSet st1.store ("execution:" ++ executionId ++ ":completed")
          (successData, now + 3600)) }
      (successData, st2, 1)

/-- `cancelExecution(executionId)` (lines 107-116): persist a `cancelled`
record with a 1-hour TTL. -/
def cancelExecution (st : ExecState) (now : Nat) (executionId : String) :
    ExecState :=
  let cancelledData : ExecRecord := ⟨executionId, "cancelled", none, none⟩
  { st with store := (alSet st.store ("execution:" ++ executionId ++ ":cancelled")
      (cancelledData, now + 3600)) }

/-- `getExecutionStatus(executionId)` (lines 119-146): look up `running`,
then `completed`, then `cancelled`, in that order, returning the first
live record; absent all three, synthesize `not_found`. -/
def getExecutionStatus (st : ExecState) (now : Nat) (executionId : String) :
    ExecRecord :=
  match ttlGet st.store ("execution:" ++ executionId ++ ":running") now with
  | some r => ⟨r.executionId, r.status, r.result, r.error⟩
  | none =>
    match ttlGet st.store ("execution:" ++ executionId ++ ":completed") now with
    | some r => ⟨r.executionId, r.status, r.result, r.error⟩
    | none =>
      match ttlGet st.store ("execution:" ++ executionId ++ ":cancelled") now with
      | some r => ⟨r.executionId, r.status, r.result, r.error⟩
      | none => ⟨executionId, "not_found", none, none⟩

/-- Setting a key makes it visible in an association list. -/
theorem alGet_alSet_self {α : Type} (l : List (String × α)) (k : String)
    (v : α) : alGet (alSet l k v) k = some v := by
  induction l with
  | nil => simp [alSet, alGet]
  | cons kv rest ih =>
    by_cases hk : kv.1 = k
    · simp [alSet, alGet, hk]
    · simp [alSet, alGet, hk, ih]

/-- TTL-aware lookup through an update of a different key. -/
theorem ttlGet_alSet_ne {α : Type} (l : List (String × α × Nat))
    (k k' : String) (v : α × Nat) (now : Nat) (h : ¬ k' = k) :
    ttlGet (alSet l k v) k' now = ttlGet l k' now := by
  simp [ttlGet, alGet_alSet_ne _ _ _ _ h]

/-- TTL-aware lookup of a just-set key. -/
theorem ttlGet_alSet_self {α : Type} (l : List (String × α × Nat))
    (k : String) (v : α × Nat) (now : Nat) :
    ttlGet (alSet l k v) k now = if now < v.2 then some v.1 else none := by
  simp [ttlGet, alGet_alSet_self]

/-- Appending different suffixes to the same prefix gives different
strings. -/
theorem append_ne_of_ne (pre x y : String) (h : ¬ x = y) :
    ¬ (pre ++ x = pre ++ y) := by
  intro he
  apply h
  have hd := congrArg String.data he
  rw [String.data_append, String.data_append] at hd
  have h2 := List.append_cancel_left hd
  cases x with
  | mk xd =>
    cases y with
    | mk yd => exact congrArg String.mk h2

/-- Distinct generation counters give distinct execution ids. -/
theorem mkId_ne (m n : Nat) (h : ¬ m = n) : ¬ (mkId m = mkId n) := by
  intro he
  apply h
  have hd := congrArg String.data he
  rw [mkId, mkId, String.data_append, String.data_append] at hd
  have h2 := List.append_cancel_left hd
  have h3 := congrArg List.length h2
  simpa using h3

/-- The result-cache key (`tool_result:<tool>:<serialized parameters>`). -/
def execCacheKey (toolName : String) (parameters : Params) : String :=
  "tool_result:" ++ toolName ++ ":" ++ encodeParams parameters

/-- Whether a server response is the success case. -/
def srvSuccess : ServerResp → Bool
  | ServerResp.success _ => true
  | _ => false

/-- The empty tracker state. -/
def emptyExecState : ExecState := ⟨[], [], 0⟩

/-- A tool server that always succeeds with one fixed result. -/
def successExecEnv : ExecEnv := ⟨fun _ _ => ServerResp.success "ok-result"⟩

/-- A tool server whose invocation always reports failure. -/
def failingExecEnv : ExecEnv := ⟨fun _ _ => ServerResp.failure "boom"⟩

/-- Counterexample to C3 as stated: after `cancelExecution` has persisted
the cancelled record and `getExecutionStatus` has reported `cancelled`,
the still-pending `executeTool` invocation for the same id persists a
completed record, and `getExecutionStatus` then reports `completed` — the
lookup checks `completed` before `cancelled`, so the observed `cancelled`
state does not stick. -/
theorem cancelled_status_reverts_to_completed :
    (getExecutionStatus (cancelExecution emptyExecState 0 (mkId 0)) 1
      (mkId 0)).status = "cancelled" ∧
    (getExecutionStatus
        (executeTool successExecEnv (cancelExecution emptyExecState 0 (mkId 0))
          2 "t" []).2.1
        3 (mkId 0)).status = "completed" := by
  decide

/-- C3 (amended): after `cancelExecution(id)` persists the cancelled
record, `getExecutionStatus(id)` reports `cancelled` while the record is
live and no running or completed record exists for that id; but if a
completed record is (or becomes) live for the same id, the status is that
record's — `completed` is checked before `cancelled`, so a completed
record persisted by the in-flight `executeTool` call wins. -/
theorem getExecutionStatus_after_cancel (st : ExecState) (tC tQ : Nat)
    (id : String)
    (hrun : ttlGet st.store ("execution:" ++ id ++ ":running") tQ = none) :
    (ttlGet st.store ("execution:" ++ id ++ ":completed") tQ = none →
      tQ < tC + 3600 →
      (getExecutionStatus (cancelExecution st tC id) tQ id).status =
        "cancelled") ∧
    (∀ rec, ttlGet st.store ("execution:" ++ id ++ ":completed") tQ = some rec →
      (getExecutionStatus (cancelExecution st tC id) tQ id).status =
        rec.status) := by
  have hne_run : ¬ ("execution:" ++ id ++ ":running" =
      "execution:" ++ id ++ ":cancelled") :=
    append_ne_of_ne ("execution:" ++ id) ":running" ":cancelled" (by decide)
  have hne_comp : ¬ ("execution:" ++ id ++ ":completed" =
      "execution:" ++ id ++ ":cancelled") :=
    append_ne_of_ne ("execution:" ++ id) ":completed" ":cancelled" (by decide)
  constructor
  · intro hcomp hlive
    simp [getExecutionStatus, cancelExecution,
      ttlGet_alSet_ne _ _ _ _ _ hne_run,
      ttlGet_alSet_ne _ _ _ _ _ hne_comp, hrun, hcomp,
      ttlGet_alSet_self, hlive]
  · intro rec hcomp
    simp [getExecutionStatus, cancelExecution,
      ttlGet_alSet_ne _ _ _ _ _ hne_run,
      ttlGet_alSet_ne _ _ _ _ _ hne_comp, hrun, hcomp]

/-- Witness for the amended C3 at a concrete input: a cancelled record
with no completed record yields status `cancelled`. -/
theorem getExecutionStatus_after_cancel_witness :
    (getExecutionStatus (cancelExecution emptyExecState 0 (mkId 0)) 1
      (mkId 0)).status = "cancelled" :=
  (getExecutionStatus_after_cancel emptyExecState 0 1 (mkId 0)
    (by decide)).1 (by decide) (by decide)

/-- C9 (amended): when the first call succeeds against the tool server, a
second `executeTool` call for the same `(tool, parameters)` within the
one-hour result-cache TTL returns the same status (`completed`) and the
same result payload without contacting the server — one server contact
across the two calls — but with a freshly generated execution id. -/
theorem executeTool_result_cache (env : ExecEnv) (st : ExecState)
    (t1 t2 : Nat) (tool : String) (params : Params) (r : String)
    (hsrv : env.invoke tool params = ServerResp.success r)
    (hmiss : ttlGet st.resultCache (execCacheKey tool params) t1 = none)
    (httl : t2 < t1 + 3600) :
    (executeTool env st t1 tool params).1.status = "completed" ∧
    (executeTool env st t1 tool params).1.result = some r ∧
    (executeTool env st t1 tool params).2.2 = 1 ∧
    (executeTool env (executeTool env st t1 tool params).2.1
        t2 tool params).1.status = "completed" ∧
    (executeTool env (executeTool env st t1 tool params).2.1
        t2 tool params).1.result = some r ∧
    (executeTool env (executeTool env st t1 tool params).2.1
        t2 tool params).2.2 = 0 ∧
    ¬ ((executeTool env st t1 tool params).1.executionId =
       (executeTool env (executeTool env st t1 tool params).2.1
          t2 tool params).1.executionId) := by
  simp only [execCacheKey] at hmiss
  have h1 : executeTool env st t1 tool params =
      (⟨mkId st.nextId, "completed", some r, none⟩,
       ⟨alSet st.resultCache
          ("tool_result:" ++ tool ++ ":" ++ encodeParams params) (r, t1 + 3600),
        alSet st.store ("execution:" ++ mkId st.nextId ++ ":completed")
          (⟨mkId st.nextId, "completed", some r, none⟩, t1 + 3600),
        st.nextId + 1⟩, 1) := by
    simp [executeTool, hmiss, hsrv]
  have h2 : executeTool env
      (⟨alSet st.resultCache
          ("tool_result:" ++ tool ++ ":" ++ encodeParams params) (r, t1 + 3600),
        alSet st.store ("execution:" ++ mkId st.nextId ++ ":completed")
          (⟨mkId st.nextId, "completed", some r, none⟩, t1 + 3600),
        st.nextId + 1⟩ : ExecState) t2 tool params =
      (⟨mkId (st.nextId + 1), "completed", some r, none⟩,
       ⟨alSet st.resultCache
          ("tool_result:" ++ tool ++ ":" ++ encodeParams params) (r, t1 + 3600),
        alSet st.store ("execution:" ++ mkId st.nextId ++ ":completed")
          (⟨mkId st.nextId, "completed", some r, none⟩, t1 + 3600),
        st.nextId + 2⟩, 0) := by
    simp [executeTool, ttlGet_alSet_self, httl]
  rw [h1, h2]
  exact ⟨rfl, rfl, rfl, rfl, rfl, rfl,
    mkId_ne st.nextId (st.nextId + 1) (by omega)⟩

/-- Counterexample to C9 as stated: when the first call fails, nothing is
cached, so the second call within the TTL window contacts the server again
(two contacts in total) and returns `failed`, not `completed`. -/
theorem executeTool_two_contacts_on_failure :
    (executeTool failingExecEnv emptyExecState 0 "t" []).2.2 +
      (executeTool failingExecEnv
        (executeTool failingExecEnv emptyExecState 0 "t" []).2.1
        10 "t" []).2.2 = 2 ∧
    (executeTool failingExecEnv
        (executeTool failingExecEnv emptyExecState 0 "t" []).2.1
        10 "t" []).1.status = "failed" := by
  decide

/-- Witness for the amended C9 at a concrete input: one server contact for
the first call, none for the second. -/
theorem executeTool_result_cache_witness :
    (executeTool successExecEnv emptyExecState 0 "t" []).2.2 = 1 ∧
    (executeTool successExecEnv
      (executeTool successExecEnv emptyExecState 0 "t" []).2.1
      10 "t" []).2.2 = 0 :=
  ⟨(executeTool_result_cache successExecEnv emptyExecState 0 10 "t" []
      "ok-result" rfl (by decide) (by decide)).2.2.1,
   (executeTool_result_cache successExecEnv emptyExecState 0 10 "t" []
      "ok-result" rfl (by decide) (by decide)).2.2.2.2.2.1⟩

/-- A key ending in `:running` never coincides with a key ending in
`:completed`, whatever the embedded ids. -/
theorem execKey_running_ne_completed (i id : String) :
    ¬ ("execution:" ++ i ++ ":running" = "execution:" ++ id ++ ":completed") := by
  intro he
  have hd := congrArg (fun s => s.data.reverse.head?) he
  simp only [String.data_append] at hd
  simp [List.reverse_append] at hd

/-- TTL-aware lookup misses when the raw lookup misses. -/
theorem ttlGet_none_of_alGet_none {α : Type} (l : List (String × α × Nat))
    (k : String) (now : Nat) (h : alGet l k = none) :
    ttlGet l k now = none := by
  simp [ttlGet, h]

/-- C10: `executeTool` never persists a running record — the status store
is unchanged on every running-state key — and for a fresh execution id the
status after the call is `not_found` unless this very invocation succeeded
against the tool server (cache miss and success response), in which case
it is the persisted completed record. In particular ids returned from a
result-cache hit or from a failed execution report `not_found`. -/
theorem executeTool_no_running_persisted (env : ExecEnv) (st : ExecState)
    (now : Nat) (tool : String) (params : Params) :
    (∀ i, ttlGet (executeTool env st now tool params).2.1.store
        ("execution:" ++ i ++ ":running") now =
      ttlGet st.store ("execution:" ++ i ++ ":running") now) ∧
    ((∀ s, alGet st.store ("execution:" ++ mkId st.nextId ++ s) = none) →
      (((ttlGet st.resultCache (execCacheKey tool params) now).isSome = true ∨
          srvSuccess (env.invoke tool params) = false) →
        getExecutionStatus (executeTool env st now tool params).2.1 now
          (executeTool env st now tool params).1.executionId =
          ⟨mkId st.nextId, "not_found", none, none⟩) ∧
      (ttlGet st.resultCache (execCacheKey tool params) now = none →
        ∀ r, env.invoke tool params = ServerResp.success r →
        getExecutionStatus (executeTool env st now tool params).2.1 now
          (executeTool env st now tool params).1.executionId =
          ⟨mkId st.nextId, "completed", some r, none⟩)) := by
  cases hc : ttlGet st.resultCache
      ("tool_result:" ++ tool ++ ":" ++ encodeParams params) now with
  | some v =>
    refine ⟨fun i => by simp [executeTool, hc], fun hfresh => ⟨fun _ => ?_, fun hmiss r hr => ?_⟩⟩
    · simp [executeTool, hc, getExecutionStatus,
        ttlGet_none_of_alGet_none _ _ now (hfresh ":running"),
        ttlGet_none_of_alGet_none _ _ now (hfresh ":completed"),
        ttlGet_none_of_alGet_none _ _ now (hfresh ":cancelled")]
    · simp only [execCacheKey] at hmiss
      rw [hmiss] at hc
      cases hc
  | none =>
    cases hv : env.invoke tool params with
    | success r0 =>
      refine ⟨fun i => ?_, fun hfresh => ⟨fun hor => ?_, fun hmiss r hr => ?_⟩⟩
      · simp only [executeTool]
        simp [hc, hv]
        rw [ttlGet_alSet_ne]
        exact execKey_running_ne_completed i (mkId st.nextId)
      · rcases hor with h1 | h2
        · simp only [execCacheKey] at h1
          rw [hc] at h1
          simp at h1
        · simp [srvSuccess] at h2
      · cases hr
        have hne1 := append_ne_of_ne ("execution:" ++ mkId st.nextId)
          ":running" ":completed" (by decide)
        simp only [executeTool]
        simp [hc, hv, getExecutionStatus]
        rw [ttlGet_alSet_ne _ _ _ _ _ hne1,
          ttlGet_none_of_alGet_none _ _ now (hfresh ":running"),
          ttlGet_alSet_self]
        simp
    | netThrow =>
      refine ⟨fun i => by simp [executeTool, hc, hv],
        fun hfresh => ⟨fun _ => ?_, fun hmiss r hr => ?_⟩⟩
      · simp [executeTool, hc, hv, getExecutionStatus,
          ttlGet_none_of_alGet_none _ _ now (hfresh ":running"),
          ttlGet_none_of_alGet_none _ _ now (hfresh ":completed"),
          ttlGet_none_of_alGet_none _ _ now (hfresh ":cancelled")]
      · cases hr
    | httpError =>
      refine ⟨fun i => by simp [executeTool, hc, hv],
        fun hfresh => ⟨fun _ => ?_, fun hmiss r hr => ?_⟩⟩
      · simp [executeTool, hc, hv, getExecutionStatus,
          ttlGet_none_of_alGet_none _ _ now (hfresh ":running"),
          ttlGet_none_of_alGet_none _ _ now (hfresh ":completed"),
          ttlGet_none_of_alGet_none _ _ now (hfresh ":cancelled")]
      · cases hr
    | failure err =>
      refine ⟨fun i => by simp [executeTool, hc, hv],
        fun hfresh => ⟨fun _ => ?_, fun hmiss r hr => ?_⟩⟩
      · simp [executeTool, hc, hv, getExecutionStatus,
          ttlGet_none_of_alGet_none _ _ now (hfresh ":running"),
          ttlGet_none_of_alGet_none _ _ now (hfresh ":completed"),
          ttlGet_none_of_alGet_none _ _ now (hfresh ":cancelled")]
      · cases hr

/-- Witness for C10 at a concrete input: the id of a failed execution
reports `not_found`. -/
theorem executeTool_no_running_persisted_witness :
    getExecutionStatus (executeTool failingExecEnv emptyExecState 0 "t" []).2.1
      0 (executeTool failingExecEnv emptyExecState 0 "t" []).1.executionId =
      ⟨mkId 0, "not_found", none, none⟩ :=
  ((executeTool_no_running_persisted failingExecEnv emptyExecState 0 "t" []).2
    (fun _ => rfl)).1 (Or.inr (by decide))

/-! ## `validateToolSchema` over a model of JavaScript values
(src/src/lib/interfaces/DynamicDiscoveryInterface.ts, lines 297-349) -/

/-- A model of the JavaScript values a tool descriptor can hold. -/
inductive JsVal where
  | nullV
  | undef
  | boolV (b : Bool)
  | numV (n : Int)
  | strV (s : String)
  | arrV (xs : List JsVal)
  | objV (fields : List (String × JsVal))

/-- JavaScript truthiness (`NaN` is not modelled; the source never
produces it here). -/
def truthy : JsVal → Bool
  | JsVal.nullV => false
  | JsVal.undef => false
  | JsVal.boolV b => b
  | JsVal.numV n => if n = 0 then false else true
  | JsVal.strV s => if s = "" then false else true
  | JsVal.arrV _ => true
  | JsVal.objV _ => true

/-- `typeof x === 'object'` (true for objects, arrays and `null`). -/
def typeofObject : JsVal → Bool
  | JsVal.nullV => true
  | JsVal.arrV _ => true
  | JsVal.objV _ => true
  | _ => false

/-- `x === null`. -/
def isNullV : JsVal → Bool
  | JsVal.nullV => true
  | _ => false

/-- `Array.isArray(x)`. -/
def isArrayV : JsVal → Bool
  | JsVal.arrV _ => true
  | _ => false

/-- JavaScript property-key coercion (ToPropertyKey / String conversion).
Array element joining is abbreviated to a fixed marker; this only affects
which key a non-string `required` entry selects, and both the embedded
function and its characterization use the same coercion. -/
def jsKey : JsVal → String
  | JsVal.strV s => s
  | JsVal.nullV => "null"
  | JsVal.undef => "undefined"
  | JsVal.boolV true => "true"
  | JsVal.boolV false => "false"
  | JsVal.numV n => toString n
  | JsVal.arrV _ => "[array]"
  | JsVal.objV _ => "[object Object]"

/-- JavaScript property access `base[key]`, yielding `undefined` when
absent. (Access on `null`/`undefined` throws in JavaScript; the source
wraps the whole check in try/catch returning `false`, and `undefined` here
makes every guard fail the same way.) -/
def getField : JsVal → String → JsVal
  | JsVal.objV fields, k =>
    match alGet fields k with
    | some v => v
    | none => JsVal.undef
  | JsVal.arrV xs, k =>
    match k.toNat? with
    | some i => if h : i < xs.length then xs.get ⟨i, h⟩ else JsVal.undef
    | none => JsVal.undef
  | _, _ => JsVal.undef

/-- The element list of an array value (only used under an
`Array.isArray` guard). -/
def arrElems : JsVal → List JsVal
  | JsVal.arrV xs => xs
  | _ => []

/-- The `for (const requiredField of inputSchema.required)` loop
(lines 335-340): fail on the first required field whose entry in
`properties` is falsy. -/
def requiredOk (properties : JsVal) : List JsVal → Bool
  | [] => true
  | f :: rest =>
    if !truthy (getField properties (jsKey f)) then false
    else requiredOk properties rest

/-- `validateToolSchema(tool)` (lines 297-349), translated guard by
guard. -/
def validateToolSchema (tool : JsVal) : Bool :=
  if !truthy (getField tool "name") || !truthy (getField tool "description") then
    false
  else if !truthy (getField tool "schema") then false
  else if truthy (getField (getField tool "schema") "inputSchema") then
    if !typeofObject (getField (getField tool "schema") "inputSchema") ||
        isNullV (getField (getField tool "schema") "inputSchema") then false
    else if truthy (getField (getField (getField tool "schema") "inputSchema") "properties") &&
        !typeofObject (getField (getField (getField tool "schema") "inputSchema") "properties") then
      false
    else if truthy (getField (getField (getField tool "schema") "inputSchema") "required") &&
        !isArrayV (getField (getField (getField tool "schema") "inputSchema") "required") then
      false
    else if truthy (getField (getField (getField tool "schema") "inputSchema") "required") &&
        truthy (getField (getField (getField tool "schema") "inputSchema") "properties") then
      requiredOk (getField (getField (getField tool "schema") "inputSchema") "properties")
        (arrElems (getField (getField (getField tool "schema") "inputSchema") "required"))
    else true
  else true

/-- Whether `k` names a key of `properties` (the claim's reading of the
required-fields check). -/
def isKeyOf (properties : JsVal) (k : String) : Bool :=
  match properties with
  | JsVal.objV fields => (alGet fields k).isSome
  | _ => false

/-- Every `required` entry names a key of `properties` (spec-side). -/
def requiredNames (properties : JsVal) : List JsVal → Bool
  | [] => true
  | f :: rest => isKeyOf properties (jsKey f) && requiredNames properties rest

/-- C8's predicate exactly as the claim words it (spec-side definition,
for comparison with the source function): name and description present
and, whenever `schema.inputSchema` is present, its `properties` (if
present) is an object, its `required` (if present) is an array, and every
entry of `required` names a key of `properties`. -/
def validateToolSchemaClaim (tool : JsVal) : Bool :=
  truthy (getField tool "name") && truthy (getField tool "description") &&
  (!truthy (getField (getField tool "schema") "inputSchema") ||
    ((!truthy (getField (getField (getField tool "schema") "inputSchema") "properties") ||
        typeofObject (getField (getField (getField tool "schema") "inputSchema") "properties")) &&
     (!truthy (getField (getField (getField tool "schema") "inputSchema") "required") ||
        isArrayV (getField (getField (getField tool "schema") "inputSchema") "required")) &&
     requiredNames (getField (getField (getField tool "schema") "inputSchema") "properties")
       (arrElems (getField (getField (getField tool "schema") "inputSchema") "required"))))

/-- Counterexample to C8 as stated: a descriptor with `name` and
`description` but no `schema` satisfies the claim's predicate, yet
`validateToolSchema` returns `false` — the source additionally requires
`schema` to be present (line 306), which the claim omits. -/
theorem validateToolSchema_requires_schema :
    validateToolSchema
      (JsVal.objV [("name", JsVal.strV "a"), ("description", JsVal.strV "b")]) =
      false ∧
    validateToolSchemaClaim
      (JsVal.objV [("name", JsVal.strV "a"), ("description", JsVal.strV "b")]) =
      true := by
  constructor <;> rfl

/-- The exact characterization of `validateToolSchema` (amended C8). -/
def validateToolSchemaChar (tool : JsVal) : Bool :=
  truthy (getField tool "name") && truthy (getField tool "description") &&
  truthy (getField tool "schema") &&
  (!truthy (getField (getField tool "schema") "inputSchema") ||
    ((typeofObject (getField (getField tool "schema") "inputSchema") &&
        !isNullV (getField (getField tool "schema") "inputSchema")) &&
     (!truthy (getField (getField (getField tool "schema") "inputSchema") "properties") ||
        typeofObject (getField (getField (getField tool "schema") "inputSchema") "properties")) &&
     (!truthy (getField (getField (getField tool "schema") "inputSchema") "required") ||
        isArrayV (getField (getField (getField tool "schema") "inputSchema") "required")) &&
     (!(truthy (getField (getField (getField tool "schema") "inputSchema") "required") &&
         truthy (getField (getField (getField tool "schema") "inputSchema") "properties")) ||
       requiredOk (getField (getField (getField tool "schema") "inputSchema") "properties")
         (arrElems (getField (getField (getField tool "schema") "inputSchema") "required")))))

/-- C8 (amended): `validateToolSchema` returns `true` exactly when `name`,
`description` and `schema` are all truthy and, whenever
`schema.inputSchema` is truthy, it is of object type, its `properties`
(if truthy) is of object type, its `required` (if truthy) is an array,
and — when both `required` and `properties` are truthy — every entry of
`required` maps to a truthy value in `properties`; on any violation it
returns `false`, and being a total function it never raises. -/
theorem validateToolSchema_characterization (tool : JsVal) :
    validateToolSchema tool = validateToolSchemaChar tool := by
  unfold validateToolSchema validateToolSchemaChar
  generalize requiredOk
    (getField (getField (getField tool "schema") "inputSchema") "properties")
    (arrElems (getField (getField (getField tool "schema") "inputSchema") "required")) = a11
  generalize truthy (getField tool "name") = a1
  generalize truthy (getField tool "description") = a2
  generalize truthy (getField tool "schema") = a3
  generalize truthy (getField (getField tool "schema") "inputSchema") = a4
  generalize typeofObject (getField (getField tool "schema") "inputSchema") = a5
  generalize isNullV (getField (getField tool "schema") "inputSchema") = a6
  generalize truthy
    (getField (getField (getField tool "schema") "inputSchema") "properties") = a7
  generalize typeofObject
    (getField (getField (getField tool "schema") "inputSchema") "properties") = a8
  generalize truthy
    (getField (getField (getField tool "schema") "inputSchema") "required") = a9
  generalize isArrayV
    (getField (getField (getField tool "schema") "inputSchema") "required") = a10
  cases a1 <;> cases a2 <;> cases a3 <;> cases a4 <;> cases a5 <;> cases a6 <;>
    cases a7 <;> cases a8 <;> cases a9 <;> cases a10 <;> cases a11 <;> rfl
